import Mathlib

/-!
# libportal USB portal client: session handshake and device registry

Shallow embedding of `libportal/usb.c`, `libportal/usb-device.c` and
`libportal/usb-device-candidate.c`.

* GLib objects are records; the D-Bus connection is a record holding the table
  of registered signal subscriptions and the list of method calls sent.
* Every C callback is a function on an explicit world state.  The transport
  invokes a signal callback once per subscription that is registered at the
  moment of dispatch, and never for a subscription that was unsubscribed.
* Heap cells that the C code releases with `g_free` are `Option` values; a
  callback that dereferences a released cell has no defined result (`none`).
  A call on which GLib aborts the process has no result either (`none`).
-/

namespace Libportal

/-! ## GVariant values -/

/-- GVariant values, restricted to the shapes this code builds or inspects. -/
inductive GVariant where
  | string (s : String)
  | boolean (b : Bool)
  | int16 (n : Int)
  | uint16 (n : Nat)
  | uint32 (n : Nat)
  | vardict (entries : List (String × GVariant))
  | array (items : List GVariant)
  | tuple (items : List GVariant)

/-- An `a{sv}` dictionary in wire order. -/
abbrev VarDict := List (String × GVariant)

/-- Conversion of a `uint16_t` argument to the `gint16` parameter of
`g_variant_new_int16` (two's complement, 16 bits). -/
def gint16_of_uint16 (v : Nat) : Int :=
  if v % 65536 < 32768 then ((v % 65536 : Nat) : Int) else ((v % 65536 : Nat) : Int) - 65536

/-! ## usb-device-candidate.c -/

/-- The `struct _XdpUsbDeviceCandidate`: two `uint16_t` fields. -/
structure XdpUsbDeviceCandidate where
  vendor_id : Nat
  product_id : Nat
deriving DecidableEq, Repr

/-- The `xdp_usb_device_candidate_new`: the arguments are `uint16_t`. -/
def xdp_usb_device_candidate_new (vendor_id product_id : Nat) : XdpUsbDeviceCandidate :=
  { vendor_id := vendor_id % 65536, product_id := product_id % 65536 }

/-- The `xdp_usb_device_candidate_copy`: a fresh cell with the same two fields. -/
def xdp_usb_device_candidate_copy (self : XdpUsbDeviceCandidate) : XdpUsbDeviceCandidate :=
  { vendor_id := self.vendor_id, product_id := self.product_id }

/-- The `xdp_usb_device_candidate_to_gvariant`: a vardict with two entries, both
built with `g_variant_new_int16`. -/
def xdp_usb_device_candidate_to_gvariant (self : XdpUsbDeviceCandidate) : GVariant :=
  .vardict [("vendor_id", .int16 (gint16_of_uint16 self.vendor_id)),
            ("product_id", .int16 (gint16_of_uint16 self.product_id))]

/-! ## usb-device.c -/

/-- The `g_variant_dict_insert_value`: the dictionary is a hash table keyed by
the attribute name, so an insertion replaces an earlier value of the same key. -/
def g_variant_dict_insert_value (dict : VarDict) (key : String) (value : GVariant) : VarDict :=
  dict.filter (fun e => e.1 ≠ key) ++ [(key, value)]

/-- The `struct _XdpUsbDevice`. -/
structure XdpUsbDevice where
  id : String
  properties : VarDict

/-- The `xdp_usb_device_new`: sets `id` and inserts every `(key, value)` of the
iterator into the (initially empty) property dictionary, in order. -/
def xdp_usb_device_new (id : String) (properties_iter : VarDict) : XdpUsbDevice :=
  { id := id,
    properties := properties_iter.foldl (fun d e => g_variant_dict_insert_value d e.1 e.2) [] }

/-- The `xdp_usb_device_get_id`. -/
def xdp_usb_device_get_id (self : XdpUsbDevice) : String :=
  self.id

/-- The `g_variant_dict_lookup_value`: the value stored under the key, if any. -/
def g_variant_dict_lookup_value (dict : VarDict) (key : String) : Option GVariant :=
  (dict.find? (fun e => decide (e.1 = key))).map (fun e => e.2)

/-- The `xdp_usb_device_get_property_string`: `value` starts as `NULL` and is
written only when the key is present with a string value (`"&s"`). -/
def xdp_usb_device_get_property_string (self : XdpUsbDevice) (property : String) :
    Option String :=
  match g_variant_dict_lookup_value self.properties property with
  | some (.string s) => some s
  | _ => none

/-- The `xdp_usb_device_get_property_boolean`: `value` starts as `FALSE` and is
written only when the key is present with a boolean value (`"b"`). -/
def xdp_usb_device_get_property_boolean (self : XdpUsbDevice) (property : String) : Bool :=
  match g_variant_dict_lookup_value self.properties property with
  | some (.boolean b) => b
  | _ => false

/-- The `xdp_usb_device_get_property_uint16`: `value` starts as `(uint16_t) -1`
and is written only when the key is present with a uint16 value (`"q"`). -/
def xdp_usb_device_get_property_uint16 (self : XdpUsbDevice) (property : String) : Nat :=
  match g_variant_dict_lookup_value self.properties property with
  | some (.uint16 n) => n % 65536
  | _ => (65536 - 1) % 65536

/-- The value of the last entry for `key` in an attribute list, if there is one. -/
def last_entry_value (attributes : VarDict) (key : String) : Option GVariant :=
  (attributes.filter (fun e => decide (e.1 = key))).getLast?.map (fun e => e.2)

/-! ## The D-Bus connection -/

/-- The C callbacks this file registers for signals. -/
inductive SignalCallback where
  | usb_session_device_events_cb
  | create_usb_session_response_received
deriving DecidableEq, Repr

/-- One entry of the connection's subscription table. -/
structure SignalSubscription where
  id : Nat
  interface_name : String
  member : String
  object_path : String
  callback : SignalCallback
deriving DecidableEq, Repr

/-- One outbound `g_dbus_connection_call`. -/
structure MethodCall where
  bus_name : String
  object_path : String
  interface_name : String
  method_name : String
  parameters : Option GVariant

/-- The `GDBusConnection` as seen by this code: the subscription table, the last
subscription id handed out (ids are never zero), and the calls sent so far. -/
structure GDBusConnection where
  last_subscription_id : Nat
  subscriptions : List SignalSubscription
  calls : List MethodCall

/-- The `g_dbus_connection_signal_subscribe`: registers the callback under a
fresh non-zero id and returns that id. -/
def g_dbus_connection_signal_subscribe (bus : GDBusConnection)
    (interface_name member object_path : String) (callback : SignalCallback) :
    GDBusConnection × Nat :=
  let id := bus.last_subscription_id + 1
  ({ bus with
      last_subscription_id := id,
      subscriptions := bus.subscriptions ++
        [{ id := id, interface_name := interface_name, member := member,
           object_path := object_path, callback := callback }] }, id)

/-- The `g_dbus_connection_signal_unsubscribe`: drops the entry with that id. -/
def g_dbus_connection_signal_unsubscribe (bus : GDBusConnection) (id : Nat) : GDBusConnection :=
  { bus with subscriptions := bus.subscriptions.filter (fun s => s.id ≠ id) }

/-- The `g_dbus_connection_call`: records the outbound call. -/
def g_dbus_connection_call (bus : GDBusConnection) (c : MethodCall) : GDBusConnection :=
  { bus with calls := bus.calls ++ [c] }

/-- Names from `portal-private.h`, which is not part of the sources at hand;
they are taken as a parameter. -/
structure PortalPrivate where
  PORTAL_BUS_NAME : String
  PORTAL_OBJECT_PATH : String
  REQUEST_PATH_BASE : String
  SESSION_PATH_BASE : String
  REQUEST_INTERFACE : String

/-! ## usb.c: the session object -/

/-- State of the parent `XdpSession`. -/
inductive XdpSessionState where
  | active
  | closed
deriving DecidableEq, Repr

/-- Modelled from the spec: the parent `XdpSession` object (`session-private.h`
and its implementation are not part of the sources at hand).  It carries the
session handle and the Active/Closed state of the spec's data model. -/
structure XdpSession where
  id : String
  state : XdpSessionState
deriving DecidableEq, Repr

/-- The `struct _XdpUsbSession`. -/
structure XdpUsbSession where
  parent_session : Option XdpSession
  device_events_signal_id : Nat
  devices : List XdpUsbDevice

/-- What the session code does to the outside, in program order. -/
inductive Effect where
  | signal_unsubscribe (id : Nat)
  | list_store_remove_all
  | session_close (handle : String)
  | emit_closed
deriving DecidableEq, Repr

/-- One session together with the connection it lives on and the log of its
effects. -/
structure UsbWorld where
  bus : GDBusConnection
  self : XdpUsbSession
  log : List Effect

/-- One element `(event, id, attributes)` of a `DeviceEvents` batch. -/
structure DeviceEvent where
  event : String
  id : String
  properties : VarDict

/-- The `on_parent_session_closed_cb`: re-emits `closed` on the USB session and
does nothing else. -/
def on_parent_session_closed_cb (w : UsbWorld) : UsbWorld :=
  { w with log := w.log ++ [Effect.emit_closed] }

/-- Modelled from the spec: `xdp_session_close` of the parent session (its
source is not at hand).  The session goes Active to Closed once, and the
closed notification, to which `on_parent_session_closed_cb` is connected, is
emitted on that transition only. -/
def xdp_session_close (w : UsbWorld) (parent : XdpSession) : UsbWorld :=
  let w1 := { w with log := w.log ++ [Effect.session_close parent.id] }
  match parent.state with
  | .active => on_parent_session_closed_cb w1
  | .closed => w1

/-- Modelled from the spec: closure initiated by the broker.  The parent session
(if the USB session still holds one that is Active) becomes Closed and emits
its closed notification, which runs `on_parent_session_closed_cb`. -/
def broker_closed (w : UsbWorld) : UsbWorld :=
  match w.self.parent_session with
  | none => w
  | some parent =>
    match parent.state with
    | .closed => w
    | .active =>
      on_parent_session_closed_cb
        { w with self := { w.self with parent_session := some { parent with state := .closed } } }

/-- The `close_parent_session`. -/
def close_parent_session (w : UsbWorld) : UsbWorld :=
  match w.self.parent_session with
  | none => w
  | some parent =>
    let w1 := { w with
      bus := g_dbus_connection_signal_unsubscribe w.bus w.self.device_events_signal_id,
      log := w.log ++ [Effect.signal_unsubscribe w.self.device_events_signal_id] }
    let w2 := { w1 with self := { w1.self with device_events_signal_id := 0 } }
    let w3 := { w2 with self := { w2.self with devices := [] },
                        log := w2.log ++ [Effect.list_store_remove_all] }
    let w4 := xdp_session_close w3 parent
    { w4 with self := { w4.self with parent_session := none } }

/-- The `xdp_usb_session_close`. -/
def xdp_usb_session_close (w : UsbWorld) : UsbWorld :=
  close_parent_session w

/-- The `for` loop of the `"remove"` branch: from index `i` on, the first item
whose id equals `id` is removed with `g_list_store_remove` and the loop stops. -/
def device_remove_loop (id : String) (devices : List XdpUsbDevice) (i : Nat) :
    List XdpUsbDevice :=
  if h : i < devices.length then
    if id = xdp_usb_device_get_id (devices.get ⟨i, h⟩) then devices.eraseIdx i
    else device_remove_loop id devices (i + 1)
  else devices
termination_by devices.length - i

/-- Body of the `while` loop of `usb_session_device_events_cb` for one event. -/
def device_event_step (devices : List XdpUsbDevice) (ev : DeviceEvent) : List XdpUsbDevice :=
  if ev.event = "add" then
    devices ++ [xdp_usb_device_new ev.id ev.properties]
  else if ev.event = "remove" then
    device_remove_loop ev.id devices 0
  else devices

/-- The `usb_session_device_events_cb`: iterates the batch in order. -/
def usb_session_device_events_cb (w : UsbWorld) (batch : List DeviceEvent) : UsbWorld :=
  { w with self := { w.self with devices := batch.foldl device_event_step w.self.devices } }

/-- Whether a subscription is one for `DeviceEvents` at `object_path`. -/
def is_device_events_subscription (object_path : String) (s : SignalSubscription) : Bool :=
  decide (s.callback = SignalCallback.usb_session_device_events_cb) &&
  decide (s.interface_name = "org.freedesktop.portal.Usb") &&
  decide (s.member = "DeviceEvents") &&
  decide (s.object_path = object_path)

/-- The transport delivering one `DeviceEvents` signal emitted at `object_path`:
the callback runs once for every matching subscription that is registered. -/
def deliver_device_events (w : UsbWorld) (object_path : String) (batch : List DeviceEvent) :
    UsbWorld :=
  (w.bus.subscriptions.filter (is_device_events_subscription object_path)).foldl
    (fun acc _ => usb_session_device_events_cb acc batch) w

/-- Modelled from the spec: `_xdp_session_new` (not part of the sources at
hand) builds the parent session for a handle, in state Active. -/
def _xdp_session_new (session_handle : String) : XdpSession :=
  { id := session_handle, state := .active }

/-- The `xdp_usb_session_new`: parent session, `DeviceEvents` subscription at
the session handle, then the initial devices appended in order.  A `NULL`
iterator (`none`) skips the loop. -/
def xdp_usb_session_new (bus : GDBusConnection) (session_handle : String)
    (devices_iter : Option (List (String × VarDict))) : GDBusConnection × XdpUsbSession :=
  let parent := _xdp_session_new session_handle
  let sub := g_dbus_connection_signal_subscribe bus "org.freedesktop.portal.Usb" "DeviceEvents"
    session_handle SignalCallback.usb_session_device_events_cb
  let devices :=
    match devices_iter with
    | none => []
    | some items => items.foldl (fun acc e => acc ++ [xdp_usb_device_new e.1 e.2]) []
  (sub.1, { parent_session := some parent, device_events_signal_id := sub.2, devices := devices })

/-- The `xdp_usb_session_get_devices`. -/
def xdp_usb_session_get_devices (self : XdpUsbSession) : List XdpUsbDevice :=
  self.devices

/-! ## usb.c: CreateSession -/

/-- The `XdpUsbAccessMode` enumeration of `usb.h`. -/
inductive XdpUsbAccessMode where
  | XDP_USB_ACCESS_MODE_LISTED_DEVICES
  | XDP_USB_ACCESS_MODE_ALL
deriving DecidableEq, Repr

/-- The `access_mode_to_string`; the `default` branch needs a value outside the
enumeration. -/
def access_mode_to_string : XdpUsbAccessMode → String
  | .XDP_USB_ACCESS_MODE_LISTED_DEVICES => "listed-devices"
  | .XDP_USB_ACCESS_MODE_ALL => "all"

/-- A `GError`. -/
structure GError where
  domain : String
  code : Nat
  message : String
deriving DecidableEq, Repr

/-- GIO's error domain. -/
def G_IO_ERROR : String := "g-io-error-quark"

/-- GIO's `G_IO_ERROR_FAILED`. -/
def G_IO_ERROR_FAILED : Nat := 0

/-- GIO's `G_IO_ERROR_CANCELLED`. -/
def G_IO_ERROR_CANCELLED : Nat := 19

/-- What a `g_task_return_*` call hands to the caller of `create_session`. -/
inductive TaskResult where
  | pointer (usb_session : XdpUsbSession)
  | error (e : GError)

/-- Whether a task result is a session. -/
def TaskResult.is_session : TaskResult → Bool
  | .pointer _ => true
  | .error _ => false

/-- The parent window reference (`parent-private.h` is not at hand; only its
presence matters here). -/
structure XdpParent where
  window : String
deriving DecidableEq, Repr

/-- The `CreateUsbSessionCall` struct.  `portal` and `task` live in the world;
`cancellable` records whether the pointer is non-`NULL`. -/
structure CreateUsbSessionCall where
  session_id : Option String
  signal_id : Nat
  cancellable : Bool
  parent : Option XdpParent
  parent_handle : Option String
  request_path : Option String
  cancelled_id : Nat
  device_candidates : Option (List XdpUsbDeviceCandidate)
  access_mode : XdpUsbAccessMode
  reason : Option String

/-- Everything one `create_session` call can touch. -/
structure CallWorld where
  /-- The portal's unique-name component (`portal->sender`). -/
  sender : String
  /-- The portal's connection (`portal->bus`). -/
  bus : GDBusConnection
  /-- The heap cell of the call; `none` once it was released with `g_free`. -/
  call : Option CreateUsbSessionCall
  /-- Handler ids connected to `cancelled` of the caller's `GCancellable`. -/
  cancellable_handlers : List Nat
  /-- Last handler id handed out by `g_signal_connect` (never zero). -/
  last_handler_id : Nat
  /-- Values the next `g_random_int_range` calls will draw. -/
  random_source : List Nat
  /-- A `parent_export` was requested and has not called back yet. -/
  export_pending : Bool
  /-- The `CreateSession` call was sent and its completion has not run yet. -/
  reply_pending : Bool
  /-- Number of `parent_unexport` calls. -/
  parent_unexported : Nat
  /-- Results handed to the task, in order. -/
  task_returns : List TaskResult

/-- GLib's `G_MAXINT`. -/
def G_MAXINT : Nat := 2147483647

/-- The `g_random_int_range (0, G_MAXINT)`: the next value of the source,
brought into the half-open range. -/
def g_random_int_range (w : CallWorld) : CallWorld × Nat :=
  match w.random_source with
  | [] => (w, 0)
  | n :: rest => ({ w with random_source := rest }, n % G_MAXINT)

/-- The `g_signal_connect (cancellable, "cancelled", ...)`. -/
def g_signal_connect_cancelled (w : CallWorld) : CallWorld × Nat :=
  let id := w.last_handler_id + 1
  ({ w with last_handler_id := id, cancellable_handlers := w.cancellable_handlers ++ [id] }, id)

/-- The `g_signal_handler_disconnect (cancellable, id)`. -/
def g_signal_handler_disconnect (w : CallWorld) (id : Nat) : CallWorld :=
  { w with cancellable_handlers := w.cancellable_handlers.filter (fun h => h ≠ id) }

/-- The `create_usb_session_call_free` on a live call. -/
def create_usb_session_call_free (w : CallWorld) (call : CreateUsbSessionCall) : CallWorld :=
  let w1 := if call.parent.isSome then { w with parent_unexported := w.parent_unexported + 1 } else w
  let w2 := if call.signal_id ≠ 0 then
      { w1 with bus := g_dbus_connection_signal_unsubscribe w1.bus call.signal_id }
    else w1
  let w3 := if call.cancelled_id ≠ 0 then g_signal_handler_disconnect w2 call.cancelled_id else w2
  { w3 with call := none }

/-- The `g_variant_lookup_value` on an `a{sv}` value. -/
def g_variant_lookup_value (dict : VarDict) (key : String) : Option GVariant :=
  (dict.find? (fun e => e.1 = key)).map (fun e => e.2)

/-- One `(sa{sv})` element. -/
def as_device_entry : GVariant → Option (String × VarDict)
  | .tuple [.string id, .vardict props] => some (id, props)
  | _ => none

/-- A value of type `a(sa{sv})`, as an iterator over its elements. -/
def as_device_array : GVariant → Option (List (String × VarDict))
  | .array items => items.mapM as_device_entry
  | _ => none

/-- The `g_variant_lookup (ret, "available_devices", "a(sa{sv})", &iter)`: the
iterator stays `NULL` when the key is absent or the value has another type. -/
def lookup_available_devices (ret : VarDict) : Option (List (String × VarDict)) :=
  (g_variant_lookup_value ret "available_devices").bind as_device_array

/-- The `create_usb_session_response_received`.  The call is released when the
function returns (`g_autoptr`).  A `NULL` session id cannot occur once the
subscription exists (both are set by `create_usb_session`) and is given no
result here. -/
def create_usb_session_response_received (w : CallWorld) (response : Nat) (ret : VarDict) :
    Option CallWorld :=
  match w.call with
  | none => none
  | some call =>
    let w1 := if call.cancelled_id ≠ 0 then g_signal_handler_disconnect w call.cancelled_id else w
    let call1 := if call.cancelled_id ≠ 0 then { call with cancelled_id := 0 } else call
    if response = 0 then
      match call.session_id with
      | none => none
      | some session_id =>
        let available_devices := lookup_available_devices ret
        let r := xdp_usb_session_new w1.bus session_id available_devices
        let w2 := { w1 with bus := r.1, task_returns := w1.task_returns ++ [TaskResult.pointer r.2] }
        some (create_usb_session_call_free w2 call1)
    else if response = 1 then
      let e : GError := { domain := G_IO_ERROR, code := G_IO_ERROR_CANCELLED,
                          message := "USB permission request canceled" }
      let w2 := { w1 with task_returns := w1.task_returns ++ [TaskResult.error e] }
      some (create_usb_session_call_free w2 call1)
    else
      let e : GError := { domain := G_IO_ERROR, code := G_IO_ERROR_FAILED,
                          message := "USB permission request failed" }
      let w2 := { w1 with task_returns := w1.task_returns ++ [TaskResult.error e] }
      some (create_usb_session_call_free w2 call1)

/-- The `create_usb_session_cancelled_cb`.  The call is released when the
function returns (`g_autoptr`).  With a `NULL` request path the
`g_dbus_connection_call` fails its precondition and sends nothing. -/
def create_usb_session_cancelled_cb (K : PortalPrivate) (w : CallWorld) : Option CallWorld :=
  match w.call with
  | none => none
  | some call =>
    let bus1 :=
      match call.request_path with
      | some request_path =>
        g_dbus_connection_call w.bus
          { bus_name := K.PORTAL_BUS_NAME, object_path := request_path,
            interface_name := K.REQUEST_INTERFACE, method_name := "Close", parameters := none }
      | none => w.bus
    let e : GError := { domain := G_IO_ERROR, code := G_IO_ERROR_CANCELLED,
                        message := "CreateUsbSession call canceled by caller" }
    let w1 := { w with bus := bus1, task_returns := w.task_returns ++ [TaskResult.error e] }
    some (create_usb_session_call_free w1 call)

/-- The `create_usb_sesion_returned`: `call` is only dereferenced when the
finished call carries an error. -/
def create_usb_sesion_returned (w : CallWorld) (error : Option GError) : Option CallWorld :=
  match error with
  | none => some w
  | some e =>
    match w.call with
    | none => none
    | some call =>
      some (create_usb_session_call_free
        { w with task_returns := w.task_returns ++ [TaskResult.error e] } call)

/-- The options dictionary as `create_usb_session` has built it when it reaches
`if (call->device_candidates)`: the two tokens, the access mode and the
optional reason. -/
def create_session_options (call : CreateUsbSessionCall) (token session_token : String) : VarDict :=
  [("handle_token", GVariant.string token),
   ("session_handle_token", GVariant.string session_token),
   ("access_mode", GVariant.string (access_mode_to_string call.access_mode))]
  ++ (match call.reason with
      | some reason => [("reason", GVariant.string reason)]
      | none => [])

/-- The `g_variant_builder_add (&devices, "a{sv}", value)` of the candidate loop.
The format item `a{sv}` takes a `GVariantBuilder *`, and the argument passed is
the `GVariant *` returned by `xdp_usb_device_candidate_to_gvariant`: GLib
reports that it expected an array builder and aborts, whatever the builder and
the value are. -/
def g_variant_builder_add_devices (_devices : List GVariant) (_value : GVariant) :
    Option (List GVariant) :=
  none

/-- The candidate loop of `create_usb_session` followed by
`g_variant_builder_end`: one `g_variant_builder_add` per stored candidate, in
index order, starting from the empty `aa{sv}` builder. -/
def build_devices (device_candidates : List XdpUsbDeviceCandidate) : Option GVariant :=
  (device_candidates.foldlM
    (fun devices candidate =>
      g_variant_builder_add_devices devices (xdp_usb_device_candidate_to_gvariant candidate))
    []).map GVariant.array

/-- The `if (call->device_candidates)` block of `create_usb_session`: with a
candidate array the built `devices` value is added to the options. -/
def add_devices_option (options : VarDict)
    (device_candidates : Option (List XdpUsbDeviceCandidate)) : Option VarDict :=
  match device_candidates with
  | none => some options
  | some cs => (build_devices cs).map (fun devices => options ++ [("devices", devices)])

/-- The `CreateSession` call sent by `create_usb_session`, with parameters
`(sa{sv})`. -/
def create_session_call (K : PortalPrivate) (parent_handle : String) (options : VarDict) :
    MethodCall :=
  { bus_name := K.PORTAL_BUS_NAME, object_path := K.PORTAL_OBJECT_PATH,
    interface_name := "org.freedesktop.portal.Usb", method_name := "CreateSession",
    parameters := some (GVariant.tuple [GVariant.string parent_handle,
                                        GVariant.vardict options]) }

/-- The `create_usb_session`.  With a stored candidate the candidate loop aborts
the process before the `CreateSession` call is sent. -/
def create_usb_session (K : PortalPrivate) (w : CallWorld) : Option CallWorld :=
  match w.call with
  | none => none
  | some call =>
    match call.parent_handle with
    | none =>
      match call.parent with
      | none => none
      | some _ => some { w with export_pending := true }
    | some parent_handle =>
      let r1 := g_random_int_range w
      let token := "portal" ++ toString r1.2
      let request_path := K.REQUEST_PATH_BASE ++ w.sender ++ "/" ++ token
      let sub := g_dbus_connection_signal_subscribe r1.1.bus K.REQUEST_INTERFACE "Response"
        request_path SignalCallback.create_usb_session_response_received
      let w2 := { r1.1 with bus := sub.1 }
      let con := if call.cancellable then g_signal_connect_cancelled w2 else (w2, 0)
      let r2 := g_random_int_range con.1
      let session_token := "portal" ++ toString r2.2
      let session_id := K.SESSION_PATH_BASE ++ w.sender ++ "/" ++ session_token
      let call1 := { call with request_path := some request_path, signal_id := sub.2,
                               cancelled_id := con.2, session_id := some session_id }
      match add_devices_option (create_session_options call1 token session_token)
          call.device_candidates with
      | none => none
      | some options =>
        let create := create_session_call K parent_handle options
        some { r2.1 with call := some call1,
                         bus := g_dbus_connection_call r2.1.bus create,
                         reply_pending := true }

/-- The `parent_exported`. -/
def parent_exported (K : PortalPrivate) (w : CallWorld) (handle : String) : Option CallWorld :=
  match w.call with
  | none => none
  | some call => create_usb_session K { w with call := some { call with parent_handle := some handle } }

/-- The world before any call was made on a portal. -/
def CallWorld.idle (sender : String) (bus : GDBusConnection) (random_source : List Nat) :
    CallWorld :=
  { sender := sender, bus := bus, call := none, cancellable_handlers := [],
    last_handler_id := 0, random_source := random_source, export_pending := false,
    reply_pending := false, parent_unexported := 0, task_returns := [] }

/-- The `xdp_portal_create_usb_session`.  `candidates` is the `NULL`-terminated
array (`none` for `NULL`); an array whose first element is `NULL` fails the
`g_return_if_fail` precondition and nothing happens. -/
def xdp_portal_create_usb_session (K : PortalPrivate) (w : CallWorld)
    (parent : Option XdpParent) (access_mode : XdpUsbAccessMode)
    (candidates : Option (List XdpUsbDeviceCandidate)) (cancellable : Bool) : Option CallWorld :=
  if candidates = some [] then some w
  else
    let call : CreateUsbSessionCall :=
      { session_id := none, signal_id := 0, cancellable := cancellable,
        parent := parent,
        parent_handle := (match parent with
                          | some _ => none
                          | none => some ""),
        request_path := none, cancelled_id := 0,
        device_candidates := candidates.map (fun cs => cs.map xdp_usb_device_candidate_copy),
        access_mode := access_mode, reason := none }
    create_usb_session K { w with call := some call }

/-! ## The main loop: events that reach a pending call -/

/-- Events the main loop can hand to the callbacks of one call. -/
inductive CallEvent where
  /-- The `Response` signal emitted at `object_path`. -/
  | response (object_path : String) (code : Nat) (results : VarDict)
  /-- The caller's `GCancellable` is cancelled. -/
  | cancelled
  /-- The outbound `CreateSession` call finished, with a transport error or not. -/
  | returned (error : Option GError)
  /-- The parent window export finished with `handle`. -/
  | parent_exported (handle : String)

/-- Whether a subscription is one for `Response` at `object_path`. -/
def is_response_subscription (K : PortalPrivate) (object_path : String)
    (s : SignalSubscription) : Bool :=
  decide (s.callback = SignalCallback.create_usb_session_response_received) &&
  decide (s.interface_name = K.REQUEST_INTERFACE) &&
  decide (s.member = "Response") &&
  decide (s.object_path = object_path)

/-- Dispatch of one event.  A signal callback runs once per matching subscription
of the snapshot taken at dispatch, provided that subscription is still registered
when its turn comes; the same holds for handlers of `cancelled`; the completion
callbacks run only while their operation is outstanding. -/
def deliver (K : PortalPrivate) (w : CallWorld) : CallEvent → Option CallWorld
  | .response object_path code results =>
    (w.bus.subscriptions.filter (is_response_subscription K object_path)).foldlM
      (fun acc s =>
        if acc.bus.subscriptions.any (fun t => decide (t.id = s.id)) then
          create_usb_session_response_received acc code results
        else some acc) w
  | .cancelled =>
    w.cancellable_handlers.foldlM
      (fun acc h =>
        if acc.cancellable_handlers.any (fun t => decide (t = h)) then
          create_usb_session_cancelled_cb K acc
        else some acc) w
  | .returned error =>
    if w.reply_pending then create_usb_sesion_returned { w with reply_pending := false } error
    else some w
  | .parent_exported handle =>
    if w.export_pending then parent_exported K { w with export_pending := false } handle
    else some w

/-- Dispatch of a sequence of events, in order. -/
def run (K : PortalPrivate) (w : CallWorld) (events : List CallEvent) : Option CallWorld :=
  events.foldlM (deliver K) w

/-! ## Registry as described by the specification (section 4.3) -/

/-- Spec 4.3 `load`: the registry holds the initial devices, in order. -/
def Registry.load (initial : List XdpUsbDevice) : List XdpUsbDevice :=
  initial

/-- Spec 4.2 `apply_add`: append, no uniqueness check. -/
def Registry.apply_add (r : List XdpUsbDevice) (d : XdpUsbDevice) : List XdpUsbDevice :=
  r ++ [d]

/-- Spec 4.2 `apply_remove`: remove the first entry whose id matches, if any. -/
def Registry.apply_remove (r : List XdpUsbDevice) (id : String) : List XdpUsbDevice :=
  r.eraseP (fun d => decide (id = d.id))

/-- Spec 4.2: one event applied to the registry; other kinds are ignored. -/
def Registry.apply_event (r : List XdpUsbDevice) (ev : DeviceEvent) : List XdpUsbDevice :=
  if ev.event = "add" then Registry.apply_add r (xdp_usb_device_new ev.id ev.properties)
  else if ev.event = "remove" then Registry.apply_remove r ev.id
  else r

/-! ## Consistency of a session with the subscription table -/

/-- The subscriptions of the table whose callback is `usb_session_device_events_cb`. -/
def device_events_subscriptions (bus : GDBusConnection) : List SignalSubscription :=
  bus.subscriptions.filter
    (fun s => decide (s.callback = SignalCallback.usb_session_device_events_cb))

/-- The subscription `xdp_usb_session_new` registers for a handle. -/
def device_events_subscription (id : Nat) (session_handle : String) : SignalSubscription :=
  { id := id, interface_name := "org.freedesktop.portal.Usb", member := "DeviceEvents",
    object_path := session_handle, callback := SignalCallback.usb_session_device_events_cb }

/-- A world holding one session: while the session has its parent, exactly its
own `DeviceEvents` subscription is registered; once the parent is dropped, none
is, and the registry is empty. -/
def UsbWorld.Consistent (w : UsbWorld) : Prop :=
  match w.self.parent_session with
  | some parent =>
    device_events_subscriptions w.bus =
      [device_events_subscription w.self.device_events_signal_id parent.id]
  | none =>
    device_events_subscriptions w.bus = [] ∧ w.self.devices = [] ∧
      w.self.device_events_signal_id = 0

/-- The world right after `xdp_usb_session_new`. -/
def UsbWorld.create (bus : GDBusConnection) (session_handle : String)
    (devices_iter : Option (List (String × VarDict))) : UsbWorld :=
  let r := xdp_usb_session_new bus session_handle devices_iter
  { bus := r.1, self := r.2, log := [] }

/-- A connection on which nothing is registered and nothing was sent. -/
def GDBusConnection.fresh : GDBusConnection :=
  { last_subscription_id := 0, subscriptions := [], calls := [] }

/-! ## Phases of a `create_session` call -/

/-- The subscriptions of the table whose callback is
`create_usb_session_response_received`. -/
def response_subscriptions (bus : GDBusConnection) : List SignalSubscription :=
  bus.subscriptions.filter
    (fun s => decide (s.callback = SignalCallback.create_usb_session_response_received))

/-- The subscription `create_usb_session` registers for a request path. -/
def response_subscription (K : PortalPrivate) (id : Nat) (request_path : String) :
    SignalSubscription :=
  { id := id, interface_name := K.REQUEST_INTERFACE, member := "Response",
    object_path := request_path, callback := SignalCallback.create_usb_session_response_received }

/-- A world in which no call is under way: nothing of an earlier call is
registered or outstanding. -/
def CallWorld.Idle (w : CallWorld) : Prop :=
  w.cancellable_handlers = [] ∧ response_subscriptions w.bus = [] ∧ w.task_returns = [] ∧
    w.export_pending = false ∧ w.reply_pending = false

/-- Spec 4.1 state 1: the parent window export is outstanding; nothing was
reserved, subscribed, connected or sent yet. -/
def AwaitingParentHandle (w : CallWorld) : Prop :=
  ∃ call parent, w.call = some call ∧ call.parent_handle = none ∧ call.parent = some parent ∧
    call.signal_id = 0 ∧ call.cancelled_id = 0 ∧ w.export_pending = true ∧
    w.reply_pending = false ∧ w.cancellable_handlers = [] ∧
    response_subscriptions w.bus = [] ∧ w.task_returns = []

/-- Spec 4.1 state 3: the call is live, its `Response` subscription at
`request_path` is registered, the cancellation observer is connected if the
call has one, and nothing was delivered yet. -/
def AwaitingResponse (K : PortalPrivate) (w : CallWorld) (request_path : String) : Prop :=
  ∃ call session_id, w.call = some call ∧ call.request_path = some request_path ∧
    call.session_id = some session_id ∧ call.signal_id ≠ 0 ∧
    response_subscriptions w.bus = [response_subscription K call.signal_id request_path] ∧
    w.cancellable_handlers = (if call.cancelled_id = 0 then [] else [call.cancelled_id]) ∧
    w.export_pending = false ∧ w.task_returns = []

/-- Spec 4.1 state 4: one outcome was delivered, the call is released, the
`Response` subscription is unsubscribed and the cancellation observer is
disconnected. -/
def Resolved (w : CallWorld) : Prop :=
  w.call = none ∧ response_subscriptions w.bus = [] ∧ w.cancellable_handlers = [] ∧
    w.export_pending = false ∧ w.task_returns.length = 1

/-- The live call, if there is one, stores no candidate array. -/
def CandidateFree (w : CallWorld) : Prop :=
  ∀ call, w.call = some call → call.device_candidates = none

/-- The three phases a call without candidates goes through. -/
def CallPhase (K : PortalPrivate) (w : CallWorld) : Prop :=
  (AwaitingParentHandle w ∧ CandidateFree w) ∨
    (∃ request_path, AwaitingResponse K w request_path) ∨ Resolved w

/-- The `Close` call `create_usb_session_cancelled_cb` sends for a request path. -/
def close_call (K : PortalPrivate) (request_path : String) : MethodCall :=
  { bus_name := K.PORTAL_BUS_NAME, object_path := request_path,
    interface_name := K.REQUEST_INTERFACE, method_name := "Close", parameters := none }

/-- Outcome Denied: the error delivered for response code 1. -/
def denied_error : GError :=
  { domain := G_IO_ERROR, code := G_IO_ERROR_CANCELLED, message := "USB permission request canceled" }

/-- Outcome BrokerFailure: the error delivered for any other non-zero code. -/
def broker_failure_error : GError :=
  { domain := G_IO_ERROR, code := G_IO_ERROR_FAILED, message := "USB permission request failed" }

/-- Outcome CallerCancelled: the error delivered by the cancellation observer. -/
def caller_cancelled_error : GError :=
  { domain := G_IO_ERROR, code := G_IO_ERROR_CANCELLED,
    message := "CreateUsbSession call canceled by caller" }

/-! ## Reading an outbound `CreateSession` call, as the broker does -/

/-- The options dictionary of a call with parameters `(sa{sv})`. -/
def MethodCall.options (c : MethodCall) : Option VarDict :=
  match c.parameters with
  | some (.tuple [.string _, .vardict options]) => some options
  | _ => none

/-! ## A concrete call, used to instantiate the statements -/

/-- The names of `portal-private.h` as upstream libportal defines them. -/
def example_private : PortalPrivate :=
  { PORTAL_BUS_NAME := "org.freedesktop.portal.Desktop",
    PORTAL_OBJECT_PATH := "/org/freedesktop/portal/desktop",
    REQUEST_PATH_BASE := "/org/freedesktop/portal/desktop/request/",
    SESSION_PATH_BASE := "/org/freedesktop/portal/desktop/session/",
    REQUEST_INTERFACE := "org.freedesktop.portal.Request" }

/-- A portal with sender `1_42` on which nothing happened yet; the random
source will draw 5 and 6. -/
def example_idle : CallWorld :=
  CallWorld.idle "1_42" GDBusConnection.fresh [5, 6]

/-- The two candidates of the spec's scenario D. -/
def example_candidates : List XdpUsbDeviceCandidate :=
  [xdp_usb_device_candidate_new 1 2, xdp_usb_device_candidate_new 3 4]

/-- The request path reserved by the example call. -/
def example_request_path : String :=
  "/org/freedesktop/portal/desktop/request/1_42/portal5"

/-- The call record of the example call once dispatched. -/
def example_call : CreateUsbSessionCall :=
  { session_id := some "/org/freedesktop/portal/desktop/session/1_42/portal6",
    signal_id := 1, cancellable := true, parent := none, parent_handle := some "",
    request_path := some example_request_path, cancelled_id := 1,
    device_candidates := none,
    access_mode := XdpUsbAccessMode.XDP_USB_ACCESS_MODE_ALL, reason := none }

/-- The world in which the example call awaits its response: no parent window,
a cancellable, no candidates. -/
def example_awaiting : CallWorld :=
  { sender := "1_42",
    bus :=
      { last_subscription_id := 1,
        subscriptions := [response_subscription example_private 1 example_request_path],
        calls := [create_session_call example_private ""
          (create_session_options example_call "portal5" "portal6")] },
    call := some example_call, cancellable_handlers := [1], last_handler_id := 1,
    random_source := [], export_pending := false, reply_pending := true,
    parent_unexported := 0, task_returns := [] }

/-- A transport error, as `g_dbus_connection_call_finish` reports one. -/
def example_transport_error : GError :=
  { domain := "g-dbus-error-quark", code := 19, message := "No such interface" }

/-- The parent window of the example call that waits for its export. -/
def example_parent : XdpParent :=
  { window := "wayland:toplevel" }

/-- The world in which the example call, made with a parent window, a
cancellable and no candidates, waits for the export of that window. -/
def example_exporting : CallWorld :=
  { example_idle with
    call := some
      { session_id := none, signal_id := 0, cancellable := true, parent := some example_parent,
        parent_handle := none, request_path := none, cancelled_id := 0,
        device_candidates := none,
        access_mode := XdpUsbAccessMode.XDP_USB_ACCESS_MODE_ALL, reason := none },
    export_pending := true }

/-- The two tokens of a dispatched call correlate the reply.  The last call sent
is `CreateSession`; its `handle_token` option is a string without `/` and the
`Response` subscription is registered at request base ++ sender ++ `/` ++ that
token; its `session_handle_token` option is a string without `/`, and the
session delivered on a code-0 response at that request path has session base ++
sender ++ `/` ++ that token as the handle of its parent session and as the
object path of its registered `DeviceEvents` subscription. -/
def TokensCorrelate (K : PortalPrivate) (sender : String) (w1 : CallWorld) : Prop :=
  ∃ create options token session_token id,
    w1.bus.calls.getLast? = some create ∧ create.method_name = "CreateSession" ∧
    create.options = some options ∧
    g_variant_lookup_value options "handle_token" = some (GVariant.string token) ∧
    g_variant_lookup_value options "session_handle_token" =
      some (GVariant.string session_token) ∧
    '/' ∉ token.data ∧ '/' ∉ session_token.data ∧
    response_subscriptions w1.bus =
      [response_subscription K id (K.REQUEST_PATH_BASE ++ sender ++ "/" ++ token)] ∧
    ∀ results, ∃ w2 usb_session parent,
      deliver K w1
        (CallEvent.response (K.REQUEST_PATH_BASE ++ sender ++ "/" ++ token) 0 results) = some w2 ∧
      w2.task_returns = [TaskResult.pointer usb_session] ∧
      usb_session.parent_session = some parent ∧
      parent.id = K.SESSION_PATH_BASE ++ sender ++ "/" ++ session_token ∧
      device_events_subscription usb_session.device_events_signal_id
        (K.SESSION_PATH_BASE ++ sender ++ "/" ++ session_token) ∈ w2.bus.subscriptions

/-! ## Lemmas on the registry -/

theorem device_remove_loop_eq (id : String) (l : List XdpUsbDevice) :
    ∀ (n i : Nat), l.length - i = n →
      device_remove_loop id l i = l.take i ++ (l.drop i).eraseP (fun d => decide (id = d.id)) := by
  intro n
  induction n with
  | zero =>
    intro i h
    rw [device_remove_loop]
    have hi : ¬ i < l.length := by omega
    have h1 : l.drop i = [] := List.drop_eq_nil_of_le (by omega)
    have h2 : l.take i = l := List.take_of_length_le (by omega)
    simp [hi, h1, h2]
  | succ n ih =>
    intro i h
    rw [device_remove_loop]
    have hi : i < l.length := by omega
    have hd : l.drop i = l[i] :: l.drop (i + 1) := List.drop_eq_getElem_cons hi
    by_cases hm : id = xdp_usb_device_get_id (l.get ⟨i, hi⟩)
    · have hm2 : id = (l[i]).id := hm
      rw [dif_pos hi, if_pos hm]
      rw [hd, List.eraseP_cons_of_pos (by simpa using hm2), List.eraseIdx_eq_take_drop_succ]
    · have hm2 : ¬ id = (l[i]).id := hm
      rw [dif_pos hi, if_neg hm]
      rw [ih (i + 1) (by omega), hd, List.eraseP_cons_of_neg (by simpa using hm2)]
      have ht : l.take (i + 1) = l.take i ++ [l[i]] := by
        rw [List.take_succ, List.getElem?_eq_getElem hi]
        rfl
      rw [ht, List.append_assoc]
      rfl

theorem device_remove_loop_zero (id : String) (l : List XdpUsbDevice) :
    device_remove_loop id l 0 = Registry.apply_remove l id := by
  rw [device_remove_loop_eq id l l.length 0 (by omega)]
  simp [Registry.apply_remove]

theorem device_event_step_eq (r : List XdpUsbDevice) (ev : DeviceEvent) :
    device_event_step r ev = Registry.apply_event r ev := by
  unfold device_event_step Registry.apply_event
  rw [device_remove_loop_zero]
  rfl

theorem events_cb_devices (w : UsbWorld) (batch : List DeviceEvent) :
    (usb_session_device_events_cb w batch).self.devices =
      batch.foldl Registry.apply_event w.self.devices := by
  have hf : device_event_step = Registry.apply_event := by
    funext r ev
    exact device_event_step_eq r ev
  simp [usb_session_device_events_cb, hf]

/-! ## Lemmas on the device attributes -/

theorem dict_lookup_insert (dict : VarDict) (k key : String) (v : GVariant) :
    g_variant_dict_lookup_value (g_variant_dict_insert_value dict k v) key =
      if k = key then some v else g_variant_dict_lookup_value dict key := by
  unfold g_variant_dict_lookup_value g_variant_dict_insert_value
  by_cases hk : k = key
  · subst hk
    have hnone : (dict.filter (fun e => decide (e.1 ≠ k))).find? (fun e => decide (e.1 = k))
        = none := by
      rw [List.find?_eq_none]
      intro x hx
      have := (List.mem_filter.mp hx).2
      simpa using this
    simp [List.find?_append, hnone]
  · have hpred : (fun a : String × GVariant =>
          decide (decide (a.1 ≠ k) = true ∧ decide (a.1 = key) = true)) =
        (fun e => decide (e.1 = key)) := by
      funext a
      by_cases h2 : a.1 = key
      · have h3 : a.1 ≠ k := fun h => hk (h.symm.trans h2)
        simp [h2, h3]
        exact fun h => hk h.symm
      · simp [h2]
    rw [List.find?_append, List.find?_filter, hpred]
    simp [hk]

theorem dict_lookup_foldl (attributes : VarDict) (key : String) :
    ∀ (dict : VarDict),
      g_variant_dict_lookup_value
        (attributes.foldl (fun d e => g_variant_dict_insert_value d e.1 e.2) dict) key =
      (last_entry_value attributes key).or (g_variant_dict_lookup_value dict key) := by
  induction attributes with
  | nil => intro dict; simp [last_entry_value]
  | cons e rest ih =>
    intro dict
    rw [List.foldl_cons, ih, dict_lookup_insert]
    unfold last_entry_value
    by_cases hk : e.1 = key
    · simp only [hk, if_true, List.filter_cons, decide_True]
      rw [List.getLast?_cons]
      cases (rest.filter (fun e => decide (e.1 = key))).getLast? <;> simp
    · simp [hk, List.filter_cons]

theorem device_lookup (id : String) (attributes : VarDict) (key : String) :
    g_variant_dict_lookup_value (xdp_usb_device_new id attributes).properties key =
      last_entry_value attributes key := by
  unfold xdp_usb_device_new
  simp only
  rw [dict_lookup_foldl]
  simp [g_variant_dict_lookup_value]

/-! ## Lemmas on dispatch of `DeviceEvents` -/

theorem filter_device_events (bus : GDBusConnection) (object_path : String) :
    bus.subscriptions.filter (is_device_events_subscription object_path) =
      (device_events_subscriptions bus).filter (is_device_events_subscription object_path) := by
  unfold device_events_subscriptions
  rw [List.filter_filter]
  congr 1
  funext s
  unfold is_device_events_subscription
  by_cases hc : s.callback = SignalCallback.usb_session_device_events_cb <;> simp [hc]

theorem deliver_closed (w : UsbWorld) (h : w.Consistent) (hp : w.self.parent_session = none)
    (object_path : String) (batch : List DeviceEvent) :
    deliver_device_events w object_path batch = w := by
  unfold UsbWorld.Consistent at h
  rw [hp] at h
  unfold deliver_device_events
  rw [filter_device_events, h.1]
  rfl

theorem deliver_active (w : UsbWorld) (h : w.Consistent) (parent : XdpSession)
    (hp : w.self.parent_session = some parent) (batch : List DeviceEvent) :
    deliver_device_events w parent.id batch = usb_session_device_events_cb w batch := by
  unfold UsbWorld.Consistent at h
  rw [hp] at h
  unfold deliver_device_events
  rw [filter_device_events]
  simp only at h
  rw [h]
  simp [is_device_events_subscription, device_events_subscription]

theorem consistent_create (bus : GDBusConnection) (session_handle : String)
    (devices_iter : Option (List (String × VarDict)))
    (h : ∀ s ∈ bus.subscriptions, s.callback ≠ SignalCallback.usb_session_device_events_cb) :
    (UsbWorld.create bus session_handle devices_iter).Consistent := by
  have hf : bus.subscriptions.filter
      (fun s => decide (s.callback = SignalCallback.usb_session_device_events_cb)) = [] := by
    rw [List.filter_eq_nil_iff]
    intro s hs
    simpa using h s hs
  simp [UsbWorld.Consistent, UsbWorld.create, xdp_usb_session_new, _xdp_session_new,
    device_events_subscriptions, g_dbus_connection_signal_subscribe, List.filter_append, hf,
    device_events_subscription]

theorem consistent_events_cb (w : UsbWorld) (h : w.Consistent) (parent : XdpSession)
    (hp : w.self.parent_session = some parent) (batch : List DeviceEvent) :
    (usb_session_device_events_cb w batch).Consistent := by
  unfold UsbWorld.Consistent at h ⊢
  rw [hp] at h
  simp only [usb_session_device_events_cb, hp]
  exact h

theorem consistent_deliver (w : UsbWorld) (h : w.Consistent) (object_path : String)
    (batch : List DeviceEvent) : (deliver_device_events w object_path batch).Consistent := by
  cases hp : w.self.parent_session with
  | none => rw [deliver_closed w h hp]; exact h
  | some parent =>
    by_cases hpath : object_path = parent.id
    · rw [hpath, deliver_active w h parent hp]
      exact consistent_events_cb w h parent hp batch
    · have h2 := h
      unfold UsbWorld.Consistent at h2
      rw [hp] at h2
      simp only at h2
      have : deliver_device_events w object_path batch = w := by
        unfold deliver_device_events
        rw [filter_device_events, h2]
        have hne : ¬ parent.id = object_path := fun e => hpath e.symm
        simp [is_device_events_subscription, device_events_subscription, hne]
      rw [this]
      exact h

theorem close_of_closed (w : UsbWorld) (hp : w.self.parent_session = none) :
    xdp_usb_session_close w = w := by
  simp [xdp_usb_session_close, close_parent_session, hp]

theorem close_parent_dropped (w : UsbWorld) :
    (xdp_usb_session_close w).self.parent_session = none := by
  unfold xdp_usb_session_close close_parent_session
  cases hp : w.self.parent_session with
  | none => simpa using hp
  | some parent =>
    cases hs : parent.state <;> simp [xdp_session_close, on_parent_session_closed_cb, hs]

theorem close_state (w : UsbWorld) (h : w.Consistent) :
    (xdp_usb_session_close w).self.devices = [] ∧
    (xdp_usb_session_close w).self.device_events_signal_id = 0 ∧
    device_events_subscriptions (xdp_usb_session_close w).bus = [] := by
  unfold UsbWorld.Consistent at h
  unfold xdp_usb_session_close close_parent_session
  cases hp : w.self.parent_session with
  | none =>
    rw [hp] at h
    simpa using ⟨h.2.1, h.2.2, h.1⟩
  | some parent =>
    rw [hp] at h
    simp only at h
    have hsub : device_events_subscriptions
        (g_dbus_connection_signal_unsubscribe w.bus w.self.device_events_signal_id) = [] := by
      unfold device_events_subscriptions g_dbus_connection_signal_unsubscribe
      unfold device_events_subscriptions at h
      simp only
      rw [List.filter_filter, List.filter_eq_nil_iff]
      intro a ha
      by_cases hc : a.callback = SignalCallback.usb_session_device_events_cb
      · have hmem : a ∈ List.filter
            (fun s => decide (s.callback = SignalCallback.usb_session_device_events_cb))
            w.bus.subscriptions := List.mem_filter.mpr ⟨ha, by simpa using hc⟩
        rw [h] at hmem
        have ha2 := List.mem_singleton.mp hmem
        simp [ha2, device_events_subscription]
      · simp [hc]
    cases hs : parent.state <;>
      simp [xdp_session_close, on_parent_session_closed_cb, hs, hsub]

theorem consistent_close (w : UsbWorld) (h : w.Consistent) :
    (xdp_usb_session_close w).Consistent := by
  have h1 := close_parent_dropped w
  have h2 := close_state w h
  unfold UsbWorld.Consistent
  rw [h1]
  exact ⟨h2.2.2, h2.1, h2.2.1⟩

theorem consistent_broker_closed (w : UsbWorld) (h : w.Consistent) :
    (broker_closed w).Consistent := by
  unfold broker_closed
  cases hp : w.self.parent_session with
  | none => simpa using h
  | some parent =>
    unfold UsbWorld.Consistent at h
    rw [hp] at h
    cases hs : parent.state with
    | closed =>
      simp only [hs]
      unfold UsbWorld.Consistent
      rw [hp]
      exact h
    | active =>
      simp only [hs, on_parent_session_closed_cb]
      unfold UsbWorld.Consistent
      exact h

theorem deliver_batches_closed (w : UsbWorld) (h : w.Consistent)
    (hp : w.self.parent_session = none) (batches : List (String × List DeviceEvent)) :
    batches.foldl (fun acc b => deliver_device_events acc b.1 b.2) w = w := by
  induction batches with
  | nil => rfl
  | cons b rest ih =>
    rw [List.foldl_cons, deliver_closed w h hp]
    exact ih

theorem deliver_batches_active (session_handle : String) (batches : List (List DeviceEvent)) :
    ∀ (w : UsbWorld), w.Consistent →
      (∃ parent, w.self.parent_session = some parent ∧ parent.id = session_handle) →
      (batches.foldl (fun acc b => deliver_device_events acc session_handle b) w).self.devices =
        batches.flatten.foldl Registry.apply_event w.self.devices := by
  induction batches with
  | nil => intro w _ _; rfl
  | cons b rest ih =>
    intro w h hp
    obtain ⟨parent, hp, hid⟩ := hp
    have hd : deliver_device_events w session_handle b = usb_session_device_events_cb w b := by
      rw [← hid]
      exact deliver_active w h parent hp b
    rw [List.foldl_cons, hd, List.flatten_cons, List.foldl_append]
    rw [ih (usb_session_device_events_cb w b) (consistent_events_cb w h parent hp b)
      ⟨parent, by simpa [usb_session_device_events_cb] using hp, hid⟩]
    rw [events_cb_devices]

theorem create_devices (bus : GDBusConnection) (session_handle : String)
    (initial : List (String × VarDict)) :
    (UsbWorld.create bus session_handle (some initial)).self.devices =
      Registry.load (initial.map (fun e => xdp_usb_device_new e.1 e.2)) := by
  have key : ∀ (l : List (String × VarDict)) (acc : List XdpUsbDevice),
      l.foldl (fun acc e => acc ++ [xdp_usb_device_new e.1 e.2]) acc =
        acc ++ l.map (fun e => xdp_usb_device_new e.1 e.2) := by
    intro l
    induction l with
    | nil => intro acc; simp
    | cons e rest ih => intro acc; simp [ih]
  simp [UsbWorld.create, xdp_usb_session_new, Registry.load, key]

theorem create_parent (bus : GDBusConnection) (session_handle : String)
    (devices_iter : Option (List (String × VarDict))) :
    ∃ parent, (UsbWorld.create bus session_handle devices_iter).self.parent_session = some parent ∧
      parent.id = session_handle :=
  ⟨_xdp_session_new session_handle, rfl, rfl⟩

/-- Closure by the broker changes neither the registry, nor the subscription id,
nor the connection, whatever the session. -/
theorem broker_closed_keeps_session (w : UsbWorld) :
    (broker_closed w).self.devices = w.self.devices ∧
    (broker_closed w).self.device_events_signal_id = w.self.device_events_signal_id ∧
    (broker_closed w).bus = w.bus := by
  unfold broker_closed
  cases hp : w.self.parent_session with
  | none => exact ⟨rfl, rfl, rfl⟩
  | some parent =>
    cases hs : parent.state <;> simp [hs, on_parent_session_closed_cb]

/-! ## Lemmas on the handshake -/

theorem filter_response (K : PortalPrivate) (bus : GDBusConnection) (object_path : String) :
    bus.subscriptions.filter (is_response_subscription K object_path) =
      (response_subscriptions bus).filter (is_response_subscription K object_path) := by
  unfold response_subscriptions
  rw [List.filter_filter]
  congr 1
  funext s
  unfold is_response_subscription
  by_cases hc : s.callback = SignalCallback.create_usb_session_response_received <;> simp [hc]

theorem response_subscriptions_unsubscribe (K : PortalPrivate) (bus : GDBusConnection) (id : Nat)
    (request_path : String) (extra : List SignalSubscription)
    (h : response_subscriptions bus = [response_subscription K id request_path])
    (hx : ∀ s ∈ extra, s.callback ≠ SignalCallback.create_usb_session_response_received) :
    response_subscriptions (g_dbus_connection_signal_unsubscribe
      { bus with subscriptions := bus.subscriptions ++ extra } id) = [] := by
  unfold response_subscriptions g_dbus_connection_signal_unsubscribe
  unfold response_subscriptions at h
  simp only
  rw [List.filter_filter, List.filter_eq_nil_iff]
  intro a ha
  by_cases hc : a.callback = SignalCallback.create_usb_session_response_received
  · rcases List.mem_append.mp ha with ha1 | ha2
    · have hmem : a ∈ List.filter
          (fun s => decide (s.callback = SignalCallback.create_usb_session_response_received))
          bus.subscriptions := List.mem_filter.mpr ⟨ha1, by simpa using hc⟩
      rw [h] at hmem
      have ha3 := List.mem_singleton.mp hmem
      simp [ha3, response_subscription]
    · exact absurd hc (hx a ha2)
  · simp [hc]

theorem deliver_response_awaiting (K : PortalPrivate) (w : CallWorld) (request_path : String)
    (h : AwaitingResponse K w request_path) (code : Nat) (results : VarDict) :
    deliver K w (CallEvent.response request_path code results) =
      create_usb_session_response_received w code results := by
  obtain ⟨call, sid, _, _, _, _, hsub, _⟩ := h
  have hmem : response_subscription K call.signal_id request_path ∈ w.bus.subscriptions := by
    have : response_subscription K call.signal_id request_path ∈ response_subscriptions w.bus := by
      rw [hsub]; exact List.mem_singleton.mpr rfl
    exact (List.mem_filter.mp this).1
  simp only [deliver]
  rw [filter_response, hsub]
  simp [is_response_subscription, response_subscription]
  intro hall
  exact absurd rfl (hall _ hmem)

theorem deliver_response_elsewhere (K : PortalPrivate) (w : CallWorld) (request_path : String)
    (h : AwaitingResponse K w request_path) (object_path : String) (hne : object_path ≠ request_path)
    (code : Nat) (results : VarDict) :
    deliver K w (CallEvent.response object_path code results) = some w := by
  obtain ⟨call, sid, _, _, _, _, hsub, _⟩ := h
  have hne2 : ¬ request_path = object_path := fun e => hne e.symm
  simp only [deliver]
  rw [filter_response, hsub]
  simp [is_response_subscription, response_subscription, hne2]

theorem deliver_response_unsubscribed (K : PortalPrivate) (w : CallWorld)
    (h : response_subscriptions w.bus = []) (object_path : String) (code : Nat)
    (results : VarDict) :
    deliver K w (CallEvent.response object_path code results) = some w := by
  simp only [deliver]
  rw [filter_response, h]
  rfl

theorem deliver_cancelled_disconnected (K : PortalPrivate) (w : CallWorld)
    (h : w.cancellable_handlers = []) : deliver K w CallEvent.cancelled = some w := by
  simp only [deliver]
  rw [h]
  rfl

theorem call_free_resolved (K : PortalPrivate) (w : CallWorld) (call : CreateUsbSessionCall)
    (request_path : String) (extra : List SignalSubscription) (bus0 : GDBusConnection)
    (hbus : w.bus.subscriptions = bus0.subscriptions ++ extra)
    (hsub : response_subscriptions bus0 = [response_subscription K call.signal_id request_path])
    (hx : ∀ s ∈ extra, s.callback ≠ SignalCallback.create_usb_session_response_received)
    (hsig : call.signal_id ≠ 0)
    (hh : w.cancellable_handlers = if call.cancelled_id = 0 then [] else [call.cancelled_id])
    (hex : w.export_pending = false) (hret : w.task_returns.length = 1) :
    Resolved (create_usb_session_call_free w call) := by
  have hb : response_subscriptions (g_dbus_connection_signal_unsubscribe w.bus call.signal_id)
      = [] := by
    have := response_subscriptions_unsubscribe K bus0 call.signal_id request_path extra hsub hx
    unfold response_subscriptions g_dbus_connection_signal_unsubscribe at this ⊢
    simp only at this ⊢
    rw [hbus]
    exact this
  unfold Resolved create_usb_session_call_free
  by_cases hc : call.cancelled_id = 0
  · have hh0 : w.cancellable_handlers = [] := by simpa [hc] using hh
    cases hpar : call.parent.isSome <;>
      simp [hsig, hc, hb, hh0, hex, hret]
  · have hh1 : w.cancellable_handlers = [call.cancelled_id] := by simpa [hc] using hh
    cases hpar : call.parent.isSome <;>
      simp [hsig, hc, hb, hh1, hex, hret, g_signal_handler_disconnect]

theorem call_free_fields (w2 : CallWorld) (c2 : CreateUsbSessionCall) :
    (create_usb_session_call_free w2 c2).bus.calls = w2.bus.calls ∧
    (create_usb_session_call_free w2 c2).reply_pending = w2.reply_pending ∧
    (create_usb_session_call_free w2 c2).task_returns = w2.task_returns ∧
    (create_usb_session_call_free w2 c2).call = none ∧
    (c2.signal_id ≠ 0 → (create_usb_session_call_free w2 c2).bus =
        g_dbus_connection_signal_unsubscribe w2.bus c2.signal_id) := by
  unfold create_usb_session_call_free g_signal_handler_disconnect
    g_dbus_connection_signal_unsubscribe
  by_cases h1 : c2.parent.isSome = true <;> by_cases h2 : c2.signal_id = 0 <;>
    by_cases h3 : c2.cancelled_id = 0 <;> simp [h1, h2, h3]

theorem observer_disconnected (w : CallWorld) (call : CreateUsbSessionCall)
    (hh : w.cancellable_handlers = if call.cancelled_id = 0 then [] else [call.cancelled_id]) :
    ∃ (w1 : CallWorld) (c1 : CreateUsbSessionCall),
      (if call.cancelled_id ≠ 0 then g_signal_handler_disconnect w call.cancelled_id else w) = w1 ∧
      (if call.cancelled_id ≠ 0 then { call with cancelled_id := 0 } else call) = c1 ∧
      w1.bus = w.bus ∧ w1.cancellable_handlers = [] ∧ w1.task_returns = w.task_returns ∧
      w1.export_pending = w.export_pending ∧ w1.reply_pending = w.reply_pending ∧
      c1.cancelled_id = 0 ∧ c1.signal_id = call.signal_id := by
  by_cases hc : call.cancelled_id = 0
  · exact ⟨w, call, by simp [hc], by simp [hc], rfl, by simpa [hc] using hh, rfl, rfl, rfl, hc, rfl⟩
  · have hh1 : w.cancellable_handlers = [call.cancelled_id] := by simpa [hc] using hh
    exact ⟨g_signal_handler_disconnect w call.cancelled_id, { call with cancelled_id := 0 },
      by simp [hc], by simp [hc], rfl, by simp [g_signal_handler_disconnect, hh1], rfl, rfl, rfl,
      rfl, rfl⟩

theorem response_received_awaiting (K : PortalPrivate) (w : CallWorld) (request_path : String)
    (h : AwaitingResponse K w request_path) (code : Nat) (results : VarDict) :
    ∃ w1 call session_id, w.call = some call ∧ call.session_id = some session_id ∧
      create_usb_session_response_received w code results = some w1 ∧ Resolved w1 ∧
      w1.bus.calls = w.bus.calls ∧ w1.reply_pending = w.reply_pending ∧
      (code = 0 → w1.task_returns =
        [TaskResult.pointer
          (xdp_usb_session_new w.bus session_id (lookup_available_devices results)).2]) ∧
      (code = 1 → w1.task_returns = [TaskResult.error denied_error] ∧
        w1.bus = g_dbus_connection_signal_unsubscribe w.bus call.signal_id) ∧
      (code ≠ 0 → code ≠ 1 → w1.task_returns = [TaskResult.error broker_failure_error] ∧
        w1.bus = g_dbus_connection_signal_unsubscribe w.bus call.signal_id) := by
  obtain ⟨call, sid, hcall, hpath, hsid, hsig, hsub, hh, hex, hret⟩ := h
  obtain ⟨w1, c1, hw1, hc1, hb1, hh1, ht1, he1, hr1, hcid, hsg⟩ := observer_disconnected w call hh
  have hh1b : w1.cancellable_handlers = if c1.cancelled_id = 0 then [] else [c1.cancelled_id] := by
    simp [hcid, hh1]
  have hsig1 : c1.signal_id ≠ 0 := by rw [hsg]; exact hsig
  have hsub1 : response_subscriptions w.bus = [response_subscription K c1.signal_id request_path] := by
    rw [hsg]; exact hsub
  unfold create_usb_session_response_received
  rw [hcall]
  dsimp only
  rw [hw1, hc1, hsid]
  by_cases h0 : code = 0
  · subst h0
    rw [if_pos rfl]
    refine ⟨_, call, sid, rfl, hsid, rfl, ?_, ?_, ?_, ?_, ?_, ?_⟩
    · refine call_free_resolved K _ c1 request_path
        [device_events_subscription (w.bus.last_subscription_id + 1) sid] w.bus ?_ hsub1 ?_ hsig1
        hh1b (by simpa using (he1.trans hex)) (by simp [ht1, hret])
      · simp [xdp_usb_session_new, g_dbus_connection_signal_subscribe, hb1,
          device_events_subscription]
      · intro s hs
        rw [List.mem_singleton.mp hs]
        simp [device_events_subscription]
    · rw [(call_free_fields _ c1).1]
      simp [xdp_usb_session_new, g_dbus_connection_signal_subscribe, hb1,
        g_dbus_connection_call]
    · rw [(call_free_fields _ c1).2.1]
      exact hr1
    · intro _
      rw [(call_free_fields _ c1).2.2.1]
      simp [ht1, hret, hb1]
    · intro h1; exact absurd h1 (by decide)
    · intro h1; exact absurd rfl h1
  · by_cases h1 : code = 1
    · subst h1
      rw [if_neg h0, if_pos rfl]
      refine ⟨_, call, sid, rfl, hsid, rfl, ?_, ?_, ?_, ?_, ?_, ?_⟩
      · refine call_free_resolved K _ c1 request_path [] w.bus ?_ hsub1 ?_ hsig1
          hh1b (by simpa using (he1.trans hex)) (by simp [ht1, hret])
        · simp [hb1]
        · intro s hs; cases hs
      · rw [(call_free_fields _ c1).1]
        simp [hb1]
      · rw [(call_free_fields _ c1).2.1]
        exact hr1
      · intro h; exact absurd h (by decide)
      · intro _
        rw [(call_free_fields _ c1).2.2.1, (call_free_fields _ c1).2.2.2.2 hsig1]
        simp [ht1, hret, hb1, hsg, denied_error]
      · intro _ h; exact absurd rfl h
    · rw [if_neg h0, if_neg h1]
      refine ⟨_, call, sid, rfl, hsid, rfl, ?_, ?_, ?_, ?_, ?_, ?_⟩
      · refine call_free_resolved K _ c1 request_path [] w.bus ?_ hsub1 ?_ hsig1
          hh1b (by simpa using (he1.trans hex)) (by simp [ht1, hret])
        · simp [hb1]
        · intro s hs; cases hs
      · rw [(call_free_fields _ c1).1]
        simp [hb1]
      · rw [(call_free_fields _ c1).2.1]
        exact hr1
      · intro h; exact absurd h h0
      · intro h; exact absurd h h1
      · intro _ _
        rw [(call_free_fields _ c1).2.2.1, (call_free_fields _ c1).2.2.2.2 hsig1]
        simp [ht1, hret, hb1, hsg, broker_failure_error]

theorem cancelled_cb_awaiting (K : PortalPrivate) (w : CallWorld) (request_path : String)
    (h : AwaitingResponse K w request_path) :
    ∃ w1, create_usb_session_cancelled_cb K w = some w1 ∧ Resolved w1 ∧
      w1.task_returns = [TaskResult.error caller_cancelled_error] ∧
      w1.bus.calls = w.bus.calls ++ [close_call K request_path] ∧
      w1.reply_pending = w.reply_pending := by
  obtain ⟨call, sid, hcall, hpath, hsid, hsig, hsub, hh, hex, hret⟩ := h
  unfold create_usb_session_cancelled_cb
  rw [hcall]
  dsimp only
  rw [hpath]
  refine ⟨_, rfl, ?_, ?_, ?_, ?_⟩
  · refine call_free_resolved K _ call request_path [] w.bus ?_ hsub ?_ hsig hh hex
      (by simp [hret])
    · simp [g_dbus_connection_call]
    · intro s hs; cases hs
  · rw [(call_free_fields _ call).2.2.1]
    simp [hret, caller_cancelled_error]
  · rw [(call_free_fields _ call).1]
    simp [g_dbus_connection_call, close_call]
  · rw [(call_free_fields _ call).2.1]

theorem deliver_cancelled_awaiting (K : PortalPrivate) (w : CallWorld) (request_path : String)
    (h : AwaitingResponse K w request_path) :
    (∀ call, w.call = some call → call.cancelled_id ≠ 0 →
      deliver K w CallEvent.cancelled = create_usb_session_cancelled_cb K w) ∧
    (∀ call, w.call = some call → call.cancelled_id = 0 →
      deliver K w CallEvent.cancelled = some w) := by
  obtain ⟨call, sid, hcall, hpath, hsid, hsig, hsub, hh, hex, hret⟩ := h
  constructor
  · intro c hc hne
    rw [hcall] at hc
    cases hc
    have hh1 : w.cancellable_handlers = [call.cancelled_id] := by simpa [hne] using hh
    simp [deliver, hh1]
  · intro c hc he
    rw [hcall] at hc
    cases hc
    have hh1 : w.cancellable_handlers = [] := by simpa [he] using hh
    simp [deliver, hh1]

theorem returned_awaiting (K : PortalPrivate) (w : CallWorld) (request_path : String)
    (h : AwaitingResponse K w request_path) (e : GError) :
    ∃ w1, create_usb_sesion_returned w (some e) = some w1 ∧ Resolved w1 ∧
      w1.task_returns = [TaskResult.error e] ∧ w1.bus.calls = w.bus.calls := by
  obtain ⟨call, sid, hcall, hpath, hsid, hsig, hsub, hh, hex, hret⟩ := h
  unfold create_usb_sesion_returned
  dsimp only
  rw [hcall]
  refine ⟨_, rfl, ?_, ?_, ?_⟩
  · refine call_free_resolved K _ call request_path [] w.bus ?_ hsub ?_ hsig hh hex
      (by simp [hret])
    · simp
    · intro s hs; cases hs
  · rw [(call_free_fields _ call).2.2.1]
    simp [hret]
  · rw [(call_free_fields _ call).1]

theorem awaiting_of_reply_flag (K : PortalPrivate) (w : CallWorld) (request_path : String)
    (h : AwaitingResponse K w request_path) (b : Bool) :
    AwaitingResponse K { w with reply_pending := b } request_path := by
  obtain ⟨call, sid, hcall, hpath, hsid, hsig, hsub, hh, hex, hret⟩ := h
  exact ⟨call, sid, hcall, hpath, hsid, hsig, hsub, hh, hex, hret⟩

theorem resolved_of_reply_flag (w : CallWorld) (h : Resolved w) (b : Bool) :
    Resolved { w with reply_pending := b } := h


@[simp]
theorem g_random_int_range_bus (w : CallWorld) :
    (g_random_int_range w).1.bus = w.bus := by
  unfold g_random_int_range
  cases w.random_source <;> rfl

@[simp]
theorem g_random_int_range_sender (w : CallWorld) :
    (g_random_int_range w).1.sender = w.sender := by
  unfold g_random_int_range
  cases w.random_source <;> rfl

@[simp]
theorem g_random_int_range_call (w : CallWorld) :
    (g_random_int_range w).1.call = w.call := by
  unfold g_random_int_range
  cases w.random_source <;> rfl

@[simp]
theorem g_random_int_range_cancellable_handlers (w : CallWorld) :
    (g_random_int_range w).1.cancellable_handlers = w.cancellable_handlers := by
  unfold g_random_int_range
  cases w.random_source <;> rfl

@[simp]
theorem g_random_int_range_last_handler_id (w : CallWorld) :
    (g_random_int_range w).1.last_handler_id = w.last_handler_id := by
  unfold g_random_int_range
  cases w.random_source <;> rfl

@[simp]
theorem g_random_int_range_export_pending (w : CallWorld) :
    (g_random_int_range w).1.export_pending = w.export_pending := by
  unfold g_random_int_range
  cases w.random_source <;> rfl

@[simp]
theorem g_random_int_range_reply_pending (w : CallWorld) :
    (g_random_int_range w).1.reply_pending = w.reply_pending := by
  unfold g_random_int_range
  cases w.random_source <;> rfl

@[simp]
theorem g_random_int_range_task_returns (w : CallWorld) :
    (g_random_int_range w).1.task_returns = w.task_returns := by
  unfold g_random_int_range
  cases w.random_source <;> rfl

@[simp]
theorem g_random_int_range_parent_unexported (w : CallWorld) :
    (g_random_int_range w).1.parent_unexported = w.parent_unexported := by
  unfold g_random_int_range
  cases w.random_source <;> rfl

theorem create_usb_session_dispatch (K : PortalPrivate) (w : CallWorld)
    (call : CreateUsbSessionCall) (parent_handle : String)
    (hcall : w.call = some call) (hph : call.parent_handle = some parent_handle)
    (hcand : call.device_candidates = none)
    (hh : w.cancellable_handlers = []) (hs : response_subscriptions w.bus = [])
    (hex : w.export_pending = false) (hret : w.task_returns = []) :
    ∃ w1 call1 token session_token,
      create_usb_session K w = some w1 ∧
      AwaitingResponse K w1 (K.REQUEST_PATH_BASE ++ w.sender ++ "/" ++ token) ∧
      w1.call = some call1 ∧
      call1.request_path = some (K.REQUEST_PATH_BASE ++ w.sender ++ "/" ++ token) ∧
      call1.session_id = some (K.SESSION_PATH_BASE ++ w.sender ++ "/" ++ session_token) ∧
      call1.device_candidates = call.device_candidates ∧
      (call1.cancelled_id ≠ 0 ↔ call.cancellable = true) ∧
      w1.reply_pending = true ∧
      w1.bus.calls = w.bus.calls ++
        [create_session_call K parent_handle (create_session_options call1 token session_token)] := by
  unfold create_usb_session
  rw [hcall]
  dsimp only
  rw [hph, hcand]
  dsimp only [add_devices_option]
  have hs2 : List.filter
      (fun s => decide (s.callback = SignalCallback.create_usb_session_response_received))
      w.bus.subscriptions = [] := hs
  cases hcan : call.cancellable
  · refine ⟨_, _, _, _, rfl, ⟨_, _, rfl, rfl, rfl, ?_, ?_, ?_, ?_, ?_⟩, rfl, rfl, rfl, rfl, ?_, rfl, ?_⟩
    · simp [g_dbus_connection_signal_subscribe]
    · simp [response_subscriptions, response_subscription, g_dbus_connection_call,
        g_dbus_connection_signal_subscribe, List.filter_append, hs2]
    · simp [hh]
    · simp [hex]
    · simp [hret]
    · simp
    · simp [g_dbus_connection_call, g_dbus_connection_signal_subscribe]
  · refine ⟨_, _, _, _, rfl, ⟨_, _, rfl, rfl, rfl, ?_, ?_, ?_, ?_, ?_⟩, rfl, rfl, rfl, rfl, ?_, rfl, ?_⟩
    · simp [g_dbus_connection_signal_subscribe]
    · simp [response_subscriptions, response_subscription, g_dbus_connection_call,
        g_dbus_connection_signal_subscribe, List.filter_append, hs2,
        g_signal_connect_cancelled]
    · simp [hh, g_signal_connect_cancelled]
    · simp [hex, g_signal_connect_cancelled]
    · simp [hret, g_signal_connect_cancelled]
    · simp [g_signal_connect_cancelled]
    · simp [g_dbus_connection_call, g_dbus_connection_signal_subscribe,
        g_signal_connect_cancelled]

theorem entry_without_parent (K : PortalPrivate) (w : CallWorld) (hw : w.Idle)
    (access_mode : XdpUsbAccessMode) (cancellable : Bool) :
    ∃ w1 call1 token session_token,
      xdp_portal_create_usb_session K w none access_mode none cancellable = some w1 ∧
      AwaitingResponse K w1 (K.REQUEST_PATH_BASE ++ w.sender ++ "/" ++ token) ∧
      w1.call = some call1 ∧
      call1.request_path = some (K.REQUEST_PATH_BASE ++ w.sender ++ "/" ++ token) ∧
      call1.session_id = some (K.SESSION_PATH_BASE ++ w.sender ++ "/" ++ session_token) ∧
      call1.device_candidates = none ∧
      (call1.cancelled_id ≠ 0 ↔ cancellable = true) ∧
      w1.reply_pending = true ∧
      w1.bus.calls = w.bus.calls ++
        [create_session_call K "" (create_session_options call1 token session_token)] := by
  obtain ⟨hh, hs, hret, hex, _⟩ := hw
  unfold xdp_portal_create_usb_session
  rw [if_neg (by decide)]
  exact create_usb_session_dispatch K _
    { session_id := none, signal_id := 0, cancellable := cancellable, parent := none,
      parent_handle := some "", request_path := none, cancelled_id := 0,
      device_candidates := none,
      access_mode := access_mode, reason := none } "" rfl rfl rfl hh hs hex hret

theorem entry_with_parent (K : PortalPrivate) (w : CallWorld) (hw : w.Idle)
    (parent : XdpParent) (access_mode : XdpUsbAccessMode)
    (candidates : Option (List XdpUsbDeviceCandidate))
    (hc : candidates ≠ some []) (cancellable : Bool) :
    ∃ w1 call1,
      xdp_portal_create_usb_session K w (some parent) access_mode candidates cancellable
        = some w1 ∧
      AwaitingParentHandle w1 ∧ w1.call = some call1 ∧
      call1.device_candidates =
        candidates.map (fun cs => cs.map xdp_usb_device_candidate_copy) ∧
      call1.cancellable = cancellable ∧
      w1.bus = w.bus ∧ w1.sender = w.sender := by
  obtain ⟨hh, hs, hret, hex, hrep⟩ := hw
  unfold xdp_portal_create_usb_session
  rw [if_neg hc]
  unfold create_usb_session
  dsimp only
  exact ⟨_, _, rfl, ⟨_, parent, rfl, rfl, rfl, rfl, rfl, rfl, hrep, hh, hs, hret⟩, rfl, rfl, rfl,
    rfl, rfl⟩

theorem exported_dispatch (K : PortalPrivate) (w : CallWorld) (h : AwaitingParentHandle w)
    (hfree : CandidateFree w) (handle : String) :
    ∃ w1 call call1 token session_token,
      deliver K w (CallEvent.parent_exported handle) = some w1 ∧
      AwaitingResponse K w1 (K.REQUEST_PATH_BASE ++ w.sender ++ "/" ++ token) ∧
      w.call = some call ∧ w1.call = some call1 ∧
      call1.request_path = some (K.REQUEST_PATH_BASE ++ w.sender ++ "/" ++ token) ∧
      call1.session_id = some (K.SESSION_PATH_BASE ++ w.sender ++ "/" ++ session_token) ∧
      call1.device_candidates = call.device_candidates ∧
      (call1.cancelled_id ≠ 0 ↔ call.cancellable = true) ∧
      w1.reply_pending = true ∧
      w1.bus.calls = w.bus.calls ++
        [create_session_call K handle (create_session_options call1 token session_token)] := by
  obtain ⟨call, parent, hcall, hph, hpar, hsig, hcid, hex, hrep, hh, hs, hret⟩ := h
  simp only [deliver, hex, if_true, parent_exported, hcall]
  obtain ⟨w1, call1, token, session_token, h1, h2, h3, h4, h5, h6, h7, h8, h9⟩ :=
    create_usb_session_dispatch K
      { w with export_pending := false,
               call := some { call with parent_handle := some handle } }
      { call with parent_handle := some handle } handle rfl rfl (hfree call hcall) hh hs rfl hret
  exact ⟨w1, call, call1, token, session_token, h1, h2, rfl, h3, h4, h5, h6, h7, h8, h9⟩

theorem deliver_cases (K : PortalPrivate) (w : CallWorld) (h : CallPhase K w) (ev : CallEvent) :
    (∃ w1, deliver K w ev = some w1 ∧ CallPhase K w1) ∨
    (deliver K w ev = none ∧ Resolved w ∧ w.reply_pending = true ∧
      ∃ e, ev = CallEvent.returned (some e)) := by
  rcases h with ⟨ha0, hfree⟩ | ⟨request_path, hb⟩ | hc
  · -- the export is outstanding
    have ha : AwaitingParentHandle w ∧ CandidateFree w := ⟨ha0, hfree⟩
    obtain ⟨call, parent, hcall, hph, hpar, hsig, hcid, hex, hrep, hh, hs, hret⟩ := ha0
    cases ev with
    | response object_path code results =>
      exact Or.inl ⟨w, deliver_response_unsubscribed K w hs _ _ _, Or.inl ha⟩
    | cancelled =>
      exact Or.inl ⟨w, deliver_cancelled_disconnected K w hh, Or.inl ha⟩
    | returned error =>
      exact Or.inl ⟨w, by simp only [deliver, hrep]; rfl, Or.inl ha⟩
    | parent_exported handle =>
      obtain ⟨w2, _, _, token, _, h1, h2, _⟩ := exported_dispatch K w ha.1 hfree handle
      exact Or.inl ⟨w2, h1, Or.inr (Or.inl ⟨_, h2⟩)⟩
  · -- the response is awaited
    have hb2 := hb
    obtain ⟨call, sid, hcall, hpath, hsid, hsig, hsub, hh, hex, hret⟩ := hb2
    cases ev with
    | response object_path code results =>
      by_cases hp : object_path = request_path
      · subst hp
        obtain ⟨w2, _, _, _, _, h1, h2, _⟩ := response_received_awaiting K w _ hb code results
        exact Or.inl ⟨w2, by rw [deliver_response_awaiting K w _ hb]; exact h1, Or.inr (Or.inr h2)⟩
      · exact Or.inl ⟨w, deliver_response_elsewhere K w request_path hb object_path hp _ _,
          Or.inr (Or.inl ⟨_, hb⟩)⟩
    | cancelled =>
      by_cases hc0 : call.cancelled_id = 0
      · exact Or.inl ⟨w, (deliver_cancelled_awaiting K w _ hb).2 call hcall hc0,
          Or.inr (Or.inl ⟨_, hb⟩)⟩
      · obtain ⟨w2, h1, h2, _⟩ := cancelled_cb_awaiting K w _ hb
        exact Or.inl ⟨w2, by rw [(deliver_cancelled_awaiting K w _ hb).1 call hcall hc0]; exact h1,
          Or.inr (Or.inr h2)⟩
    | returned error =>
      by_cases hrep : w.reply_pending = true
      · cases error with
        | none =>
          exact Or.inl ⟨{ w with reply_pending := false },
            by simp only [deliver, hrep, if_true, create_usb_sesion_returned],
            Or.inr (Or.inl ⟨_, awaiting_of_reply_flag K w _ hb false⟩)⟩
        | some e =>
          obtain ⟨w2, h1, h2, _⟩ :=
            returned_awaiting K _ _ (awaiting_of_reply_flag K w _ hb false) e
          exact Or.inl ⟨w2, by simp only [deliver, hrep, if_true]; exact h1, Or.inr (Or.inr h2)⟩
      · exact Or.inl ⟨w, by simp only [deliver, hrep]; rfl, Or.inr (Or.inl ⟨_, hb⟩)⟩
    | parent_exported handle =>
      exact Or.inl ⟨w, by simp only [deliver, hex]; rfl, Or.inr (Or.inl ⟨_, hb⟩)⟩
  · -- an outcome was delivered
    have hc2 := hc
    obtain ⟨hcall, hs, hh, hex, hret⟩ := hc2
    cases ev with
    | response object_path code results =>
      exact Or.inl ⟨w, deliver_response_unsubscribed K w hs _ _ _, Or.inr (Or.inr hc)⟩
    | cancelled =>
      exact Or.inl ⟨w, deliver_cancelled_disconnected K w hh, Or.inr (Or.inr hc)⟩
    | returned error =>
      by_cases hrep : w.reply_pending = true
      · cases error with
        | none =>
          exact Or.inl ⟨{ w with reply_pending := false },
            by simp only [deliver, hrep, if_true, create_usb_sesion_returned],
            Or.inr (Or.inr (resolved_of_reply_flag w hc false))⟩
        | some e =>
          exact Or.inr ⟨by simp [deliver, hrep, create_usb_sesion_returned, hcall], hc, hrep,
            e, rfl⟩
      · exact Or.inl ⟨w, by simp only [deliver, hrep]; rfl, Or.inr (Or.inr hc)⟩
    | parent_exported handle =>
      exact Or.inl ⟨w, by simp only [deliver, hex]; rfl, Or.inr (Or.inr hc)⟩

theorem deliver_phase (K : PortalPrivate) (w : CallWorld) (h : CallPhase K w) (ev : CallEvent)
    (w1 : CallWorld) (hd : deliver K w ev = some w1) : CallPhase K w1 := by
  rcases deliver_cases K w h ev with ⟨w2, h1, h2⟩ | ⟨h1, _⟩
  · rw [h1] at hd
    cases hd
    exact h2
  · rw [h1] at hd
    cases hd

theorem run_defined (K : PortalPrivate) (events : List CallEvent)
    (hev : ∀ ev ∈ events, ∀ e, ev ≠ CallEvent.returned (some e)) :
    ∀ (w : CallWorld), CallPhase K w → ∃ w1, run K w events = some w1 := by
  induction events with
  | nil => intro w _; exact ⟨w, rfl⟩
  | cons ev rest ih =>
    intro w h
    rcases deliver_cases K w h ev with ⟨w2, h1, h2⟩ | ⟨_, _, _, e, he⟩
    · obtain ⟨w3, h3⟩ := ih (fun x hx => hev x (List.mem_cons_of_mem _ hx)) w2 h2
      exact ⟨w3, by simp only [run, List.foldlM_cons, h1]; exact h3⟩
    · exact absurd he (hev ev (List.mem_cons_self _ _) e)

theorem run_phase (K : PortalPrivate) (events : List CallEvent) :
    ∀ (w w1 : CallWorld), CallPhase K w → run K w events = some w1 → CallPhase K w1 := by
  induction events with
  | nil =>
    intro w w1 h hr
    simp only [run, List.foldlM_nil] at hr
    cases hr
    exact h
  | cons ev rest ih =>
    intro w w1 h hr
    simp only [run, List.foldlM_cons] at hr
    cases hd : deliver K w ev with
    | none => rw [hd] at hr; simp at hr
    | some w2 =>
      rw [hd] at hr
      exact ih w2 w1 (deliver_phase K w h ev w2 hd) hr

theorem phase_single_outcome (K : PortalPrivate) (w : CallWorld) (h : CallPhase K w) :
    w.task_returns.length ≤ 1 ∧
    (w.task_returns ≠ [] →
      response_subscriptions w.bus = [] ∧ w.cancellable_handlers = [] ∧ w.call = none) := by
  rcases h with ⟨⟨_, _, _, _, _, _, _, _, _, _, _, hret⟩, _⟩ |
    ⟨_, _, _, _, _, _, _, _, _, _, hret⟩ | hc
  · simp [hret]
  · simp [hret]
  · obtain ⟨hcall, hs, hh, _, hret⟩ := hc
    exact ⟨by omega, fun _ => ⟨hs, hh, hcall⟩⟩

theorem example_idle_is_idle : example_idle.Idle :=
  ⟨rfl, rfl, rfl, rfl, rfl⟩

theorem example_awaiting_reached :
    xdp_portal_create_usb_session example_private example_idle none
      XdpUsbAccessMode.XDP_USB_ACCESS_MODE_ALL none true
      = some example_awaiting := by
  rfl

theorem example_awaiting_phase : AwaitingResponse example_private example_awaiting example_request_path :=
  ⟨example_call, "/org/freedesktop/portal/desktop/session/1_42/portal6", rfl, rfl, rfl,
    by decide, rfl, rfl, rfl, rfl⟩

theorem as_device_array_encoded (items : List (String × VarDict)) :
    as_device_array (GVariant.array
      (items.map (fun e => GVariant.tuple [GVariant.string e.1, GVariant.vardict e.2]))) =
      some items := by
  unfold as_device_array
  induction items with
  | nil => rfl
  | cons e rest ih =>
    simp only [List.map_cons, List.mapM_cons, as_device_entry] at ih ⊢
    rw [ih]
    rfl

theorem session_new_devices (bus : GDBusConnection) (session_handle : String)
    (items : List (String × VarDict)) :
    (xdp_usb_session_new bus session_handle (some items)).2.devices =
      items.map (fun e => xdp_usb_device_new e.1 e.2) := by
  have h := create_devices bus session_handle items
  simpa [UsbWorld.create, Registry.load] using h

theorem digitChar_ne_slash (d : Nat) (h : d < 10) : Nat.digitChar d ≠ '/' := by
  interval_cases d <;> decide

theorem toDigitsCore_no_slash (fuel : Nat) :
    ∀ (n : Nat) (acc : List Char), '/' ∉ acc → '/' ∉ Nat.toDigitsCore 10 fuel n acc := by
  induction fuel with
  | zero => intro n acc h; simpa [Nat.toDigitsCore] using h
  | succ f ih =>
    intro n acc h
    have hd : '/' ∉ Nat.digitChar (n % 10) :: acc := by
      intro hm
      rcases List.mem_cons.mp hm with h1 | h1
      · exact digitChar_ne_slash (n % 10) (Nat.mod_lt _ (by decide)) h1.symm
      · exact h h1
    unfold Nat.toDigitsCore
    simp only
    split
    · exact hd
    · exact ih _ _ hd

theorem portal_token_no_slash (n : Nat) : '/' ∉ ("portal" ++ toString n).data := by
  have h1 : '/' ∉ (toString n).data := by
    show '/' ∉ (Nat.repr n).data
    unfold Nat.repr Nat.toDigits
    simpa [List.asString] using toDigitsCore_no_slash (n + 1) n [] (by simp)
  rw [String.data_append]
  intro hm
  rcases List.mem_append.mp hm with h2 | h2
  · revert h2; decide
  · exact h1 h2

theorem example_exporting_reached :
    xdp_portal_create_usb_session example_private example_idle (some example_parent)
      XdpUsbAccessMode.XDP_USB_ACCESS_MODE_ALL none true
      = some example_exporting := by
  rfl

theorem example_exporting_phase : AwaitingParentHandle example_exporting :=
  ⟨_, example_parent, rfl, rfl, rfl, rfl, rfl, rfl, rfl, rfl, rfl, rfl⟩

theorem create_session_options_tokens (call : CreateUsbSessionCall) (token session_token : String) :
    g_variant_lookup_value (create_session_options call token session_token) "handle_token" =
      some (GVariant.string token) ∧
    g_variant_lookup_value (create_session_options call token session_token)
      "session_handle_token" = some (GVariant.string session_token) := by
  unfold g_variant_lookup_value create_session_options
  cases hr : call.reason <;> simp [List.find?]

theorem create_usb_session_tokens (K : PortalPrivate) (w : CallWorld)
    (call : CreateUsbSessionCall) (parent_handle : String)
    (hcall : w.call = some call) (hph : call.parent_handle = some parent_handle)
    (hcand : call.device_candidates = none)
    (hh : w.cancellable_handlers = []) (hs : response_subscriptions w.bus = [])
    (hex : w.export_pending = false) (hret : w.task_returns = []) :
    ∃ (w1 : CallWorld) (call1 : CreateUsbSessionCall) (n1 n2 : Nat),
      create_usb_session K w = some w1 ∧
      AwaitingResponse K w1 (K.REQUEST_PATH_BASE ++ w.sender ++ "/" ++ ("portal" ++ toString n1)) ∧
      w1.call = some call1 ∧
      call1.session_id =
        some (K.SESSION_PATH_BASE ++ w.sender ++ "/" ++ ("portal" ++ toString n2)) ∧
      call1.signal_id = w1.bus.last_subscription_id ∧
      response_subscriptions w1.bus =
        [response_subscription K call1.signal_id
          (K.REQUEST_PATH_BASE ++ w.sender ++ "/" ++ ("portal" ++ toString n1))] ∧
      w1.bus.calls = w.bus.calls ++
        [create_session_call K parent_handle
          (create_session_options call1 ("portal" ++ toString n1) ("portal" ++ toString n2))] := by
  unfold create_usb_session
  rw [hcall]
  dsimp only
  rw [hph, hcand]
  dsimp only [add_devices_option]
  have hs2 : List.filter
      (fun s => decide (s.callback = SignalCallback.create_usb_session_response_received))
      w.bus.subscriptions = [] := hs
  cases hcan : call.cancellable
  · refine ⟨_, _, _, _, rfl, ⟨_, _, rfl, rfl, rfl, ?_, ?_, ?_, ?_, ?_⟩, rfl, rfl, ?_, ?_, ?_⟩
    · simp [g_dbus_connection_signal_subscribe]
    · simp [response_subscriptions, response_subscription, g_dbus_connection_call,
        g_dbus_connection_signal_subscribe, List.filter_append, hs2]
    · simp [hh]
    · simp [hex]
    · simp [hret]
    · simp [g_dbus_connection_call, g_dbus_connection_signal_subscribe]
    · simp [response_subscriptions, response_subscription, g_dbus_connection_call,
        g_dbus_connection_signal_subscribe, List.filter_append, hs2]
    · simp [g_dbus_connection_call, g_dbus_connection_signal_subscribe]
  · refine ⟨_, _, _, _, rfl, ⟨_, _, rfl, rfl, rfl, ?_, ?_, ?_, ?_, ?_⟩, rfl, rfl, ?_, ?_, ?_⟩
    · simp [g_dbus_connection_signal_subscribe]
    · simp [response_subscriptions, response_subscription, g_dbus_connection_call,
        g_dbus_connection_signal_subscribe, List.filter_append, hs2,
        g_signal_connect_cancelled]
    · simp [hh, g_signal_connect_cancelled]
    · simp [hex, g_signal_connect_cancelled]
    · simp [hret, g_signal_connect_cancelled]
    · simp [g_dbus_connection_call, g_dbus_connection_signal_subscribe,
        g_signal_connect_cancelled]
    · simp [response_subscriptions, response_subscription, g_dbus_connection_call,
        g_dbus_connection_signal_subscribe, List.filter_append, hs2,
        g_signal_connect_cancelled]
    · simp [g_dbus_connection_call, g_dbus_connection_signal_subscribe,
        g_signal_connect_cancelled]

theorem response_zero_session (K : PortalPrivate) (w : CallWorld) (request_path : String)
    (h : AwaitingResponse K w request_path) (results : VarDict) :
    ∃ w1 call session_id, w.call = some call ∧ call.session_id = some session_id ∧
      deliver K w (CallEvent.response request_path 0 results) = some w1 ∧
      w1.task_returns =
        [TaskResult.pointer
          (xdp_usb_session_new w.bus session_id (lookup_available_devices results)).2] ∧
      w1.bus = g_dbus_connection_signal_unsubscribe
        (xdp_usb_session_new w.bus session_id (lookup_available_devices results)).1
        call.signal_id := by
  rw [deliver_response_awaiting K w request_path h]
  obtain ⟨call, sid, hcall, hpath, hsid, hsig, hsub, hh, hex, hret⟩ := h
  obtain ⟨w1, c1, hw1, hc1, hb1, hh1, ht1, he1, hr1, hcid, hsg⟩ := observer_disconnected w call hh
  have hsig1 : c1.signal_id ≠ 0 := by rw [hsg]; exact hsig
  unfold create_usb_session_response_received
  rw [hcall]
  dsimp only
  rw [hw1, hc1, hsid, if_pos rfl]
  refine ⟨_, call, sid, rfl, hsid, rfl, ?_, ?_⟩
  · rw [(call_free_fields _ c1).2.2.1]
    simp [ht1, hret, hb1]
  · rw [(call_free_fields _ c1).2.2.2.2 hsig1]
    simp [hb1, hsg]

theorem tokens_correlate_of_dispatch (K : PortalPrivate) (w : CallWorld)
    (call : CreateUsbSessionCall) (parent_handle : String)
    (hcall : w.call = some call) (hph : call.parent_handle = some parent_handle)
    (hcand : call.device_candidates = none)
    (hh : w.cancellable_handlers = []) (hs : response_subscriptions w.bus = [])
    (hex : w.export_pending = false) (hret : w.task_returns = []) :
    ∃ w1, create_usb_session K w = some w1 ∧ TokensCorrelate K w.sender w1 := by
  obtain ⟨w1, call1, n1, n2, h1, hphase, hc1, hsid1, hsigid, hsub, hcalls⟩ :=
    create_usb_session_tokens K w call parent_handle hcall hph hcand hh hs hex hret
  refine ⟨w1, h1,
    create_session_call K parent_handle
      (create_session_options call1 ("portal" ++ toString n1) ("portal" ++ toString n2)),
    create_session_options call1 ("portal" ++ toString n1) ("portal" ++ toString n2),
    "portal" ++ toString n1, "portal" ++ toString n2, call1.signal_id, ?_,
    rfl, rfl, (create_session_options_tokens _ _ _).1, (create_session_options_tokens _ _ _).2,
    portal_token_no_slash n1, portal_token_no_slash n2, hsub, ?_⟩
  · rw [hcalls, List.getLast?_concat]
  · intro results
    obtain ⟨w2, call2, sid, hc2, hsid2, hd, hret2, hbus2⟩ :=
      response_zero_session K w1 _ hphase results
    rw [hc1] at hc2
    cases hc2
    rw [hsid1] at hsid2
    cases hsid2
    refine ⟨w2, _, _xdp_session_new _, hd, hret2, rfl, rfl, ?_⟩
    rw [hbus2]
    simp [xdp_usb_session_new, g_dbus_connection_signal_subscribe,
      g_dbus_connection_signal_unsubscribe, device_events_subscription, hsigid]


/-- After `xdp_usb_session_close` no delivered `DeviceEvents` batch changes the
session.  For every consistent world and every sequence of batches, emitted at
whatever object path, the world after delivery is the world right after the
close, and its registry is empty. -/
theorem closed_session_ignores_events (w : UsbWorld) (h : w.Consistent)
    (batches : List (String × List DeviceEvent)) :
    batches.foldl (fun acc b => deliver_device_events acc b.1 b.2) (xdp_usb_session_close w) =
      xdp_usb_session_close w ∧
    (batches.foldl (fun acc b => deliver_device_events acc b.1 b.2)
      (xdp_usb_session_close w)).self.devices = [] := by
  have h1 := deliver_batches_closed (xdp_usb_session_close w) (consistent_close w h)
    (close_parent_dropped w) batches
  rw [h1]
  exact ⟨rfl, (close_state w h).1⟩

/-- The handler itself has no check of the session state: were it invoked on a
closed session, an `add` event would reach the registry; what keeps a session
closed by `xdp_usb_session_close` unchanged is the release of the subscription. -/
theorem events_cb_has_no_state_check :
    (usb_session_device_events_cb
      (xdp_usb_session_close (UsbWorld.create GDBusConnection.fresh "/s" (some [("A", [])])))
      [{ event := "add", id := "X", properties := [] }]).self.devices.map xdp_usb_device_get_id
      = ["X"] := by
  decide

theorem dispatch_with_candidates_aborts (K : PortalPrivate) (w : CallWorld)
    (call : CreateUsbSessionCall) (parent_handle : String) (c : XdpUsbDeviceCandidate)
    (cs : List XdpUsbDeviceCandidate) (hcall : w.call = some call)
    (hph : call.parent_handle = some parent_handle)
    (hcand : call.device_candidates = some (c :: cs)) :
    create_usb_session K w = none := by
  unfold create_usb_session
  rw [hcall]
  dsimp only
  rw [hph, hcand]
  simp [add_devices_option, build_devices, g_variant_builder_add_devices, List.foldlM]

theorem entry_with_candidates_aborts (K : PortalPrivate) (w : CallWorld)
    (access_mode : XdpUsbAccessMode) (c : XdpUsbDeviceCandidate)
    (cs : List XdpUsbDeviceCandidate) (cancellable : Bool) :
    xdp_portal_create_usb_session K w none access_mode (some (c :: cs)) cancellable = none ∧
    ∀ (parent : XdpParent) (handle : String), ∃ w1,
      xdp_portal_create_usb_session K w (some parent) access_mode (some (c :: cs)) cancellable
        = some w1 ∧
      w1.bus = w.bus ∧ w1.task_returns = w.task_returns ∧
      deliver K w1 (CallEvent.parent_exported handle) = none := by
  have hne : (some (c :: cs) : Option (List XdpUsbDeviceCandidate)) ≠ some [] := by
    intro e
    cases e
  constructor
  · unfold xdp_portal_create_usb_session
    rw [if_neg hne]
    exact dispatch_with_candidates_aborts K _ _ "" (xdp_usb_device_candidate_copy c)
      (cs.map xdp_usb_device_candidate_copy) rfl rfl rfl
  · intro parent handle
    unfold xdp_portal_create_usb_session
    rw [if_neg hne]
    unfold create_usb_session
    dsimp only
    refine ⟨_, rfl, rfl, rfl, ?_⟩
    simp only [deliver, if_true, parent_exported]
    exact dispatch_with_candidates_aborts K _ _ handle (xdp_usb_device_candidate_copy c)
      (cs.map xdp_usb_device_candidate_copy) rfl rfl rfl

/-! ## Claims -/

/-- C1: a `Response` with code `c` delivered to a call that awaits it resolves the
call.  Code 0 delivers a session; code 1 delivers the cancelled/denied error and
code anything else the generic failure error, and in both the only change to
the connection is that the `Response` subscription is removed: no subscription
id was handed out and nothing was subscribed, so no session was constructed. -/
theorem response_code_outcome (K : PortalPrivate) (w : CallWorld) (request_path : String)
    (h : AwaitingResponse K w request_path) (code : Nat) (results : VarDict) :
    ∃ w1, deliver K w (CallEvent.response request_path code results) = some w1 ∧
      (code = 0 → ∃ usb_session, w1.task_returns = [TaskResult.pointer usb_session]) ∧
      (code = 1 → w1.task_returns = [TaskResult.error denied_error] ∧
        w1.bus.last_subscription_id = w.bus.last_subscription_id ∧
        ∀ s ∈ w1.bus.subscriptions, s ∈ w.bus.subscriptions) ∧
      (code ≠ 0 → code ≠ 1 → w1.task_returns = [TaskResult.error broker_failure_error] ∧
        w1.bus.last_subscription_id = w.bus.last_subscription_id ∧
        ∀ s ∈ w1.bus.subscriptions, s ∈ w.bus.subscriptions) := by
  obtain ⟨w1, call, sid, _, _, h1, _, _, _, h0, hden, hfail⟩ :=
    response_received_awaiting K w request_path h code results
  have hbus : w1.bus = g_dbus_connection_signal_unsubscribe w.bus call.signal_id →
      w1.bus.last_subscription_id = w.bus.last_subscription_id ∧
        ∀ s ∈ w1.bus.subscriptions, s ∈ w.bus.subscriptions := by
    intro hb
    rw [hb]
    exact ⟨rfl, fun s hs => (List.mem_filter.mp hs).1⟩
  refine ⟨w1, by rw [deliver_response_awaiting K w request_path h]; exact h1, ?_, ?_, ?_⟩
  · intro hc
    exact ⟨_, h0 hc⟩
  · intro hc
    exact ⟨(hden hc).1, hbus (hden hc).2⟩
  · intro hc0 hc1
    exact ⟨(hfail hc0 hc1).1, hbus (hfail hc0 hc1).2⟩

/-- Witness of C1: the example call receives code 1 and delivers Denied. -/
theorem response_code_outcome_witness :
    ∃ w1, deliver example_private example_awaiting
        (CallEvent.response example_request_path 1 []) = some w1 ∧
      w1.task_returns = [TaskResult.error denied_error] := by
  obtain ⟨w1, h1, _, h2, _⟩ :=
    response_code_outcome example_private example_awaiting example_request_path
      example_awaiting_phase 1 []
  exact ⟨w1, h1, (h2 rfl).1⟩

/-- C2: a `"remove"` event deletes exactly the earliest entry whose id equals the
event's id.  Whenever the registry splits as `pre ++ d :: post` with `d` the
first entry of that id, the registry after the handler ran on the event is
`pre ++ post`: every other entry, later entries with the same id included, is
kept in its original relative order. -/
theorem remove_event_deletes_first_match (w : UsbWorld) (pre post : List XdpUsbDevice)
    (d : XdpUsbDevice) (id : String) (attrs : VarDict)
    (hw : w.self.devices = pre ++ d :: post) (hd : d.id = id)
    (hpre : ∀ x ∈ pre, x.id ≠ id) :
    (usb_session_device_events_cb w [{ event := "remove", id := id, properties := attrs }]).self.devices
      = pre ++ post := by
  rw [events_cb_devices, hw]
  simp only [List.foldl_cons, List.foldl_nil, Registry.apply_event, Registry.apply_remove]
  have hne : ¬ ("remove" = "add") := by decide
  rw [if_neg hne, if_pos trivial]
  have hnot : ∀ x ∈ pre, ¬ (decide (id = x.id) = true) := by
    intro x hx
    have := hpre x hx
    simpa using fun e => this e.symm
  rw [List.eraseP_append_right _ hnot, List.eraseP_cons_of_pos (by simpa using hd.symm)]

/-- Witness of C2: in the registry `[A, B, A]` a remove of `A` leaves `[B, A]`,
the second `A` being the later entry. -/
theorem remove_event_deletes_first_match_witness :
    (usb_session_device_events_cb
        { bus := GDBusConnection.fresh,
          self := { parent_session := some (_xdp_session_new "/s"), device_events_signal_id := 1,
                    devices := [] ++ xdp_usb_device_new "A" [] ::
                      [xdp_usb_device_new "B" [], xdp_usb_device_new "A" [("k", GVariant.boolean true)]] },
          log := [] }
        [{ event := "remove", id := "A", properties := [] }]).self.devices
      = [] ++ [xdp_usb_device_new "B" [], xdp_usb_device_new "A" [("k", GVariant.boolean true)]] :=
  remove_event_deletes_first_match _ [] _ (xdp_usb_device_new "A" []) "A" [] rfl rfl
    (by intro x hx; cases hx)

/-- C3: for a session created from an initial device list on a connection that
carries no other session, the registry after any sequence of delivered batches
equals bulk-load followed by the events applied one at a time, in delivery
order; delivering `b1` then `b2` gives the same registry as delivering
`b1 ++ b2`; and initial `[A, B]` with `remove(A)`, `add(C)` ends as `[B, C]`. -/
theorem event_ordering (bus : GDBusConnection) (session_handle : String)
    (h : ∀ s ∈ bus.subscriptions, s.callback ≠ SignalCallback.usb_session_device_events_cb) :
    (∀ (initial : List (String × VarDict)) (batches : List (List DeviceEvent)),
      (batches.foldl (fun acc b => deliver_device_events acc session_handle b)
          (UsbWorld.create bus session_handle (some initial))).self.devices =
        batches.flatten.foldl Registry.apply_event
          (Registry.load (initial.map (fun e => xdp_usb_device_new e.1 e.2)))) ∧
    (∀ (initial : List (String × VarDict)) (earlier : List (List DeviceEvent))
        (b1 b2 : List DeviceEvent),
      ((earlier ++ [b1, b2]).foldl (fun acc b => deliver_device_events acc session_handle b)
          (UsbWorld.create bus session_handle (some initial))).self.devices =
      ((earlier ++ [b1 ++ b2]).foldl (fun acc b => deliver_device_events acc session_handle b)
          (UsbWorld.create bus session_handle (some initial))).self.devices) ∧
    (∀ (attrs : VarDict),
      (([[{ event := "remove", id := "A", properties := [] }],
         [{ event := "add", id := "C", properties := attrs }]] : List (List DeviceEvent)).foldl
          (fun acc b => deliver_device_events acc session_handle b)
          (UsbWorld.create bus session_handle (some [("A", []), ("B", [])]))).self.devices =
        [xdp_usb_device_new "B" [], xdp_usb_device_new "C" attrs]) := by
  have main : ∀ (initial : List (String × VarDict)) (batches : List (List DeviceEvent)),
      (batches.foldl (fun acc b => deliver_device_events acc session_handle b)
          (UsbWorld.create bus session_handle (some initial))).self.devices =
        batches.flatten.foldl Registry.apply_event
          (Registry.load (initial.map (fun e => xdp_usb_device_new e.1 e.2))) := by
    intro initial batches
    rw [deliver_batches_active session_handle batches _
      (consistent_create bus session_handle (some initial) h)
      (create_parent bus session_handle (some initial)), create_devices]
  refine ⟨main, ?_, ?_⟩
  · intro initial earlier b1 b2
    rw [main, main]
    simp
  · intro attrs
    rw [main]
    simp [Registry.load, Registry.apply_event, Registry.apply_remove, Registry.apply_add,
      xdp_usb_device_new, List.eraseP]

/-- Witness of C3 on a connection without subscriptions: scenario A. -/
theorem event_ordering_witness :
    (([[{ event := "remove", id := "A", properties := [] }],
       [{ event := "add", id := "C", properties := [] }]] : List (List DeviceEvent)).foldl
        (fun acc b => deliver_device_events acc "/session/1" b)
        (UsbWorld.create GDBusConnection.fresh "/session/1"
          (some [("A", []), ("B", [])]))).self.devices =
      [xdp_usb_device_new "B" [], xdp_usb_device_new "C" []] :=
  (event_ordering GDBusConnection.fresh "/session/1" (by intro s hs; cases hs)).2.2 []

/-- C4, evaluated: the caller cancels while the outbound `CreateSession` call is
still outstanding, and that call then finishes with a transport error.  The
cancellation delivers CallerCancelled and releases the call record (with the
completion callback still pending); the completion callback then reads
`call->task` from the released record to deliver a second outcome, for which no
behaviour is defined. -/
theorem cancel_then_transport_error_reads_released_call :
    (∃ w1, run example_private example_awaiting [CallEvent.cancelled] = some w1 ∧
      w1.task_returns = [TaskResult.error caller_cancelled_error] ∧
      w1.call = none ∧ w1.reply_pending = true) ∧
    run example_private example_awaiting
      [CallEvent.cancelled, CallEvent.returned (some example_transport_error)] = none ∧
    run example_private example_awaiting
      [CallEvent.response example_request_path 0 [],
       CallEvent.returned (some example_transport_error)] = none := by
  refine ⟨⟨_, rfl, rfl, rfl, rfl⟩, rfl, rfl⟩

/-- Single outcome while defined: for a call without candidates, along every
sequence of events for which the callbacks have a defined result, at most one
outcome is delivered, and once one was delivered the `Response` subscription is
unsubscribed, the cancellation observer is disconnected and the call record is
released.  The result is defined for every sequence without a transport error
of the outbound call. -/
theorem single_outcome_while_defined (K : PortalPrivate) (w : CallWorld) (h : CallPhase K w)
    (events : List CallEvent) :
    (∀ w1, run K w events = some w1 →
      w1.task_returns.length ≤ 1 ∧
      (w1.task_returns ≠ [] →
        response_subscriptions w1.bus = [] ∧ w1.cancellable_handlers = [] ∧ w1.call = none)) ∧
    ((∀ ev ∈ events, ∀ e, ev ≠ CallEvent.returned (some e)) → ∃ w1, run K w events = some w1) :=
  ⟨fun w1 hr => phase_single_outcome K w1 (run_phase K events w w1 h hr),
   fun hev => run_defined K events hev w h⟩

/-- C5: the cancellation race of a call that awaits its response and has a
cancellation observer.  Cancellation first: CallerCancelled is delivered, one
`Close` call at the reserved request path is appended to the calls sent, and a
`Response` or a further cancellation arriving later leaves the world as it is.
Response first: a cancellation arriving after the response was handled leaves
the world as it is (no outcome, no call, no state change). -/
theorem cancellation_race (K : PortalPrivate) (w : CallWorld) (request_path : String)
    (h : AwaitingResponse K w request_path)
    (hobs : ∃ call, w.call = some call ∧ call.cancelled_id ≠ 0) :
    (∃ w1, deliver K w CallEvent.cancelled = some w1 ∧
      w1.task_returns = [TaskResult.error caller_cancelled_error] ∧
      w1.bus.calls = w.bus.calls ++ [close_call K request_path] ∧
      (∀ object_path code results,
        deliver K w1 (CallEvent.response object_path code results) = some w1) ∧
      deliver K w1 CallEvent.cancelled = some w1) ∧
    (∀ code results, ∃ w2,
      deliver K w (CallEvent.response request_path code results) = some w2 ∧
      w2.bus.calls = w.bus.calls ∧
      deliver K w2 CallEvent.cancelled = some w2) := by
  obtain ⟨call, hcall, hne⟩ := hobs
  constructor
  · obtain ⟨w1, h1, hres, h2, h3, _⟩ := cancelled_cb_awaiting K w request_path h
    refine ⟨w1, ?_, h2, h3, ?_, ?_⟩
    · rw [(deliver_cancelled_awaiting K w request_path h).1 call hcall hne]
      exact h1
    · intro object_path code results
      exact deliver_response_unsubscribed K w1 hres.2.1 object_path code results
    · exact deliver_cancelled_disconnected K w1 hres.2.2.1
  · intro code results
    obtain ⟨w2, _, _, _, _, h1, hres, hcalls, _⟩ :=
      response_received_awaiting K w request_path h code results
    refine ⟨w2, ?_, hcalls, deliver_cancelled_disconnected K w2 hres.2.2.1⟩
    rw [deliver_response_awaiting K w request_path h]
    exact h1

/-- Witness of C5: the example call is cancelled before any response. -/
theorem cancellation_race_witness :
    ∃ w1, deliver example_private example_awaiting CallEvent.cancelled = some w1 ∧
      w1.task_returns = [TaskResult.error caller_cancelled_error] ∧
      w1.bus.calls = example_awaiting.bus.calls ++
        [close_call example_private example_request_path] := by
  obtain ⟨⟨w1, h1, h2, h3, _⟩, _⟩ :=
    cancellation_race example_private example_awaiting example_request_path
      example_awaiting_phase ⟨example_call, rfl, by decide⟩
  exact ⟨w1, h1, h2, h3⟩

/-- C6: `xdp_usb_session_close` is idempotent.  In every consistent world a
second close returns the world of the first close unchanged (same session
fields, same subscription table, same effect log: no further unsubscribe, no
further registry clear, no further closed emission), and that world has an
empty registry, a zero subscription id, no `DeviceEvents` subscription and no
parent session. -/
theorem close_idempotent (w : UsbWorld) (h : w.Consistent) :
    xdp_usb_session_close (xdp_usb_session_close w) = xdp_usb_session_close w ∧
    (xdp_usb_session_close (xdp_usb_session_close w)).log = (xdp_usb_session_close w).log ∧
    (xdp_usb_session_close w).self.devices = [] ∧
    (xdp_usb_session_close w).self.device_events_signal_id = 0 ∧
    device_events_subscriptions (xdp_usb_session_close w).bus = [] ∧
    (xdp_usb_session_close w).self.parent_session = none := by
  have hidem := close_of_closed (xdp_usb_session_close w) (close_parent_dropped w)
  have hst := close_state w h
  exact ⟨hidem, by rw [hidem], hst.1, hst.2.1, hst.2.2, close_parent_dropped w⟩

/-- Witness of C6: a fresh session holding two devices; the first close logs
unsubscribe, clear, parent close and one closed emission, the second nothing. -/
theorem close_idempotent_witness :
    (xdp_usb_session_close (UsbWorld.create GDBusConnection.fresh "/s"
        (some [("A", []), ("B", [])]))).log =
      [Effect.signal_unsubscribe 1, Effect.list_store_remove_all, Effect.session_close "/s",
       Effect.emit_closed] ∧
    (xdp_usb_session_close (xdp_usb_session_close (UsbWorld.create GDBusConnection.fresh "/s"
        (some [("A", []), ("B", [])])))).log =
      (xdp_usb_session_close (UsbWorld.create GDBusConnection.fresh "/s"
        (some [("A", []), ("B", [])]))).log :=
  ⟨rfl, (close_idempotent (UsbWorld.create GDBusConnection.fresh "/s" (some [("A", []), ("B", [])]))
    (consistent_create GDBusConnection.fresh "/s" _ (by intro s hs; cases hs))).2.1⟩

/-- C7, evaluated: a session holding device `A` whose parent session is closed by
the broker.  Only `closed` is emitted: the registry still holds `A`, the
`DeviceEvents` subscription is still registered under the session's id, and a
later `add` event still reaches the registry. -/
theorem broker_closure_keeps_registry_and_subscription :
    ((broker_closed (UsbWorld.create GDBusConnection.fresh "/s" (some [("A", [])]))).self.devices.map
        xdp_usb_device_get_id = ["A"]) ∧
    (device_events_subscriptions
        (broker_closed (UsbWorld.create GDBusConnection.fresh "/s" (some [("A", [])]))).bus =
      [device_events_subscription 1 "/s"]) ∧
    ((broker_closed (UsbWorld.create GDBusConnection.fresh "/s" (some [("A", [])]))).self.device_events_signal_id
      = 1) ∧
    ((broker_closed (UsbWorld.create GDBusConnection.fresh "/s" (some [("A", [])]))).log =
      [Effect.emit_closed]) ∧
    ((xdp_usb_session_close (UsbWorld.create GDBusConnection.fresh "/s" (some [("A", [])]))).self.devices.map
        xdp_usb_device_get_id = []) ∧
    ((deliver_device_events
        (broker_closed (UsbWorld.create GDBusConnection.fresh "/s" (some [("A", [])]))) "/s"
        [{ event := "add", id := "X", properties := [] }]).self.devices.map xdp_usb_device_get_id
      = ["A", "X"]) := by
  refine ⟨rfl, ?_, rfl, rfl, rfl, ?_⟩
  · decide
  · decide

/-- C8, evaluated: a session holding device `A` whose parent session the broker
closed.  The session is Closed (its parent session is in state Closed), yet its
`DeviceEvents` subscription is still registered, and a batch with an `add`
delivered at the session handle changes the registry from `[A]` to `[A, X]`.
The same batch delivered after `xdp_usb_session_close` leaves the registry
empty. -/
theorem broker_closed_session_still_changes :
    ((broker_closed (UsbWorld.create GDBusConnection.fresh "/s" (some [("A", [])]))).self.parent_session
      = some { id := "/s", state := XdpSessionState.closed }) ∧
    ((broker_closed (UsbWorld.create GDBusConnection.fresh "/s" (some [("A", [])]))).self.devices.map
        xdp_usb_device_get_id = ["A"]) ∧
    ((deliver_device_events
        (broker_closed (UsbWorld.create GDBusConnection.fresh "/s" (some [("A", [])]))) "/s"
        [{ event := "add", id := "X", properties := [] }]).self.devices.map xdp_usb_device_get_id
      = ["A", "X"]) ∧
    ((deliver_device_events
        (xdp_usb_session_close (UsbWorld.create GDBusConnection.fresh "/s" (some [("A", [])])))
        "/s" [{ event := "add", id := "X", properties := [] }]).self.devices.map
        xdp_usb_device_get_id = []) := by
  refine ⟨rfl, rfl, ?_, ?_⟩
  · decide
  · decide

/-- C9 fails as stated: the example call receives code 0 with results that lack
`available_devices`, or carry it with another type, and what is delivered is a
session (with an empty registry), not an error. -/
theorem malformed_response_delivers_session :
    (∃ w1 usb_session, deliver example_private example_awaiting
        (CallEvent.response example_request_path 0 []) = some w1 ∧
      w1.task_returns = [TaskResult.pointer usb_session] ∧ usb_session.devices = []) ∧
    (∃ w1 usb_session, deliver example_private example_awaiting
        (CallEvent.response example_request_path 0
          [("available_devices", GVariant.string "none")]) = some w1 ∧
      w1.task_returns = [TaskResult.pointer usb_session] ∧ usb_session.devices = []) :=
  ⟨⟨_, _, rfl, rfl, rfl⟩, ⟨_, _, rfl, rfl, rfl⟩⟩

/-- C9 as amended: when the `Response` has code 0 and its results hold no
`available_devices` value of type `a(sa{sv})` (key absent, or another type), the
call resolves with a session whose registry is empty and whose parent session
is the one of the call's session handle; no error is delivered. -/
theorem missing_devices_gives_empty_session (K : PortalPrivate) (w : CallWorld)
    (request_path : String) (h : AwaitingResponse K w request_path) (results : VarDict)
    (hmissing : lookup_available_devices results = none) :
    ∃ w1 usb_session call session_id,
      deliver K w (CallEvent.response request_path 0 results) = some w1 ∧
      w.call = some call ∧ call.session_id = some session_id ∧
      w1.task_returns = [TaskResult.pointer usb_session] ∧
      usb_session.devices = [] ∧
      usb_session.parent_session = some (_xdp_session_new session_id) := by
  obtain ⟨w1, call, sid, hcall, hsid, h1, _, _, _, h0, _, _⟩ :=
    response_received_awaiting K w request_path h 0 results
  refine ⟨w1, _, call, sid, ?_, hcall, hsid, h0 rfl, ?_, ?_⟩
  · rw [deliver_response_awaiting K w request_path h]
    exact h1
  · rw [hmissing]
    rfl
  · rfl

/-- Witness of C9 as amended: the example call, results without the key. -/
theorem missing_devices_gives_empty_session_witness :
    ∃ w1 usb_session,
      deliver example_private example_awaiting
        (CallEvent.response example_request_path 0 [("other", GVariant.boolean true)]) = some w1 ∧
      w1.task_returns = [TaskResult.pointer usb_session] ∧ usb_session.devices = [] := by
  obtain ⟨w1, usb_session, _, _, h1, _, _, h2, h3, _⟩ :=
    missing_devices_gives_empty_session example_private example_awaiting example_request_path
      example_awaiting_phase [("other", GVariant.boolean true)] rfl
  exact ⟨w1, usb_session, h1, h2, h3⟩

/-- C10, evaluated: scenario D, the candidates `(0x1, 0x2)` and `(0x3, 0x4)`.
The first `g_variant_builder_add (&devices, "a{sv}", ...)` of the candidate loop
aborts, so the call made without a parent window has no result and sends
nothing; made with a parent window it waits for the export, sends nothing
meanwhile, and aborts when the export completes.  The same holds for every
non-empty candidate list: no `CreateSession` call with a `devices` array is
ever sent. -/
theorem candidate_list_aborts_before_call :
    (xdp_portal_create_usb_session example_private example_idle none
        XdpUsbAccessMode.XDP_USB_ACCESS_MODE_LISTED_DEVICES (some example_candidates) true
      = none) ∧
    (∃ w1, xdp_portal_create_usb_session example_private example_idle (some example_parent)
        XdpUsbAccessMode.XDP_USB_ACCESS_MODE_LISTED_DEVICES (some example_candidates) true
        = some w1 ∧
      w1.bus.calls = [] ∧
      deliver example_private w1 (CallEvent.parent_exported "wayland:handle") = none) ∧
    (∀ (K : PortalPrivate) (w : CallWorld) (access_mode : XdpUsbAccessMode)
        (c : XdpUsbDeviceCandidate) (cs : List XdpUsbDeviceCandidate) (cancellable : Bool),
      xdp_portal_create_usb_session K w none access_mode (some (c :: cs)) cancellable = none ∧
      ∀ (parent : XdpParent) (handle : String), ∃ w1,
        xdp_portal_create_usb_session K w (some parent) access_mode (some (c :: cs)) cancellable
          = some w1 ∧
        w1.bus = w.bus ∧ w1.task_returns = w.task_returns ∧
        deliver K w1 (CallEvent.parent_exported handle) = none) := by
  refine ⟨rfl, ⟨_, rfl, rfl, rfl⟩, ?_⟩
  intro K w access_mode c cs cancellable
  exact entry_with_candidates_aborts K w access_mode c cs cancellable

/-- C11, evaluated on `xdp_usb_device_candidate_to_gvariant`: for the candidate
`(0x8000, 0xFFFF)` the attribute map holds the signed 16-bit values `-32768`
and `-1`.  For every candidate both entries are `int16` values (built with
`g_variant_new_int16`), and a field of `0x8000` or more is encoded as a negative
number. -/
theorem candidate_ids_are_encoded_signed :
    (xdp_usb_device_candidate_to_gvariant (xdp_usb_device_candidate_new 0x8000 0xFFFF) =
      GVariant.vardict [("vendor_id", GVariant.int16 (-32768)),
                        ("product_id", GVariant.int16 (-1))]) ∧
    (∀ c : XdpUsbDeviceCandidate, ∃ a b,
      xdp_usb_device_candidate_to_gvariant c =
        GVariant.vardict [("vendor_id", GVariant.int16 a), ("product_id", GVariant.int16 b)] ∧
      (32768 ≤ c.vendor_id % 65536 → a < 0) ∧ (32768 ≤ c.product_id % 65536 → b < 0)) := by
  refine ⟨rfl, ?_⟩
  intro c
  refine ⟨_, _, rfl, ?_, ?_⟩
  · intro h
    unfold gint16_of_uint16
    have hlt : c.vendor_id % 65536 < 65536 := Nat.mod_lt _ (by decide)
    split <;> omega
  · intro h
    unfold gint16_of_uint16
    have hlt : c.product_id % 65536 < 65536 := Nat.mod_lt _ (by decide)
    split <;> omega

/-- C12: a code-0 `Response` whose results carry `available_devices` as the array
of the pairs `items` delivers a session whose registry has one entry per pair,
in payload order, the i-th built from the i-th pair (so with its id), equal
ids included. -/
theorem available_devices_fill_registry (K : PortalPrivate) (w : CallWorld)
    (request_path : String) (h : AwaitingResponse K w request_path) (results : VarDict)
    (items : List (String × VarDict))
    (hres : g_variant_lookup_value results "available_devices" =
      some (GVariant.array
        (items.map (fun e => GVariant.tuple [GVariant.string e.1, GVariant.vardict e.2])))) :
    ∃ w1 usb_session,
      deliver K w (CallEvent.response request_path 0 results) = some w1 ∧
      w1.task_returns = [TaskResult.pointer usb_session] ∧
      usb_session.devices.length = items.length ∧
      usb_session.devices.map xdp_usb_device_get_id = items.map (fun e => e.1) ∧
      usb_session.devices = items.map (fun e => xdp_usb_device_new e.1 e.2) := by
  obtain ⟨w1, call, sid, _, _, h1, _, _, _, h0, _, _⟩ :=
    response_received_awaiting K w request_path h 0 results
  have hlook : lookup_available_devices results = some items := by
    unfold lookup_available_devices
    rw [hres]
    exact as_device_array_encoded items
  have hdev := session_new_devices w.bus sid items
  refine ⟨w1, _, ?_, h0 rfl, ?_, ?_, ?_⟩
  · rw [deliver_response_awaiting K w request_path h]
    exact h1
  · rw [hlook, hdev]
    simp
  · rw [hlook, hdev, List.map_map]
    rfl
  · rw [hlook, hdev]

/-- Witness of C12: the example call is granted with devices `A`, `B`, `A`. -/
theorem available_devices_fill_registry_witness :
    ∃ w1 usb_session,
      deliver example_private example_awaiting
        (CallEvent.response example_request_path 0
          [("available_devices", GVariant.array
            [GVariant.tuple [GVariant.string "A", GVariant.vardict []],
             GVariant.tuple [GVariant.string "B", GVariant.vardict []],
             GVariant.tuple [GVariant.string "A", GVariant.vardict []]])]) = some w1 ∧
      w1.task_returns = [TaskResult.pointer usb_session] ∧
      usb_session.devices.map xdp_usb_device_get_id = ["A", "B", "A"] := by
  obtain ⟨w1, usb_session, h1, h2, _, h3, _⟩ :=
    available_devices_fill_registry example_private example_awaiting example_request_path
      example_awaiting_phase
      [("available_devices", GVariant.array
        [GVariant.tuple [GVariant.string "A", GVariant.vardict []],
         GVariant.tuple [GVariant.string "B", GVariant.vardict []],
         GVariant.tuple [GVariant.string "A", GVariant.vardict []]])]
      [("A", []), ("B", []), ("A", [])] rfl
  exact ⟨w1, usb_session, h1, h2, h3⟩

/-- C13: an `"add"` event appends one device built from the event's id and
attributes at the end of the registry.  The length grows by one, the entries
that were there stay as the first entries, the new last entry has the event's
id, and none of this depends on whether the id was already present: adding `A`
to a registry that holds `A` gives the ids `[A, A]`. -/
theorem add_event_appends (w : UsbWorld) (id : String) (attrs : VarDict) :
    (usb_session_device_events_cb w
        [{ event := "add", id := id, properties := attrs }]).self.devices =
      w.self.devices ++ [xdp_usb_device_new id attrs] ∧
    (usb_session_device_events_cb w
        [{ event := "add", id := id, properties := attrs }]).self.devices.length =
      w.self.devices.length + 1 ∧
    (usb_session_device_events_cb w
        [{ event := "add", id := id, properties := attrs }]).self.devices.take
        w.self.devices.length = w.self.devices ∧
    ((usb_session_device_events_cb w
        [{ event := "add", id := id, properties := attrs }]).self.devices.getLast?.map
        xdp_usb_device_get_id = some id) ∧
    ((usb_session_device_events_cb
        { w with self := { w.self with devices := [xdp_usb_device_new "A" []] } }
        [{ event := "add", id := "A", properties := attrs }]).self.devices.map
        xdp_usb_device_get_id = ["A", "A"]) := by
  have hstep : ∀ (v : UsbWorld) (i : String),
      (usb_session_device_events_cb v
        [{ event := "add", id := i, properties := attrs }]).self.devices =
      v.self.devices ++ [xdp_usb_device_new i attrs] := by
    intro v i
    simp [usb_session_device_events_cb, device_event_step]
  refine ⟨hstep w id, ?_, ?_, ?_, ?_⟩
  · rw [hstep]
    simp
  · rw [hstep]
    simp
  · rw [hstep]
    simp [xdp_usb_device_get_id, xdp_usb_device_new]
  · rw [hstep]
    rfl

/-- C14: an event that is neither `"add"` nor `"remove"`, and a `"remove"` whose id
matches no entry of the registry at that point of the batch, leave the world as
it is, and the events after it are processed as if it were not in the batch. -/
theorem ignored_event_is_skipped (w : UsbWorld) (before rest : List DeviceEvent)
    (ev : DeviceEvent)
    (h : (ev.event ≠ "add" ∧ ev.event ≠ "remove") ∨
      (ev.event = "remove" ∧
        ∀ d ∈ (usb_session_device_events_cb w before).self.devices, d.id ≠ ev.id)) :
    usb_session_device_events_cb (usb_session_device_events_cb w before) [ev] =
      usb_session_device_events_cb w before ∧
    usb_session_device_events_cb w (before ++ ev :: rest) =
      usb_session_device_events_cb w (before ++ rest) := by
  have hstep : device_event_step (before.foldl device_event_step w.self.devices) ev =
      before.foldl device_event_step w.self.devices := by
    rw [device_event_step_eq]
    unfold Registry.apply_event
    rcases h with ⟨h1, h2⟩ | ⟨h1, h2⟩
    · rw [if_neg h1, if_neg h2]
    · have hne : ¬ (ev.event = "add") := by rw [h1]; decide
      rw [if_neg hne, if_pos h1]
      unfold Registry.apply_remove
      apply List.eraseP_of_forall_not
      intro d hd
      have := h2 d (by simpa [usb_session_device_events_cb] using hd)
      simpa using fun e => this e.symm
  constructor
  · simp only [usb_session_device_events_cb, List.foldl_cons, List.foldl_nil, hstep]
  · simp only [usb_session_device_events_cb, List.foldl_append, List.foldl_cons, hstep]

/-- Witness of C14: registry `[A]`, batch `change(A)`, `remove(Z)`, `add(B)`: the
first two events are skipped and the third is applied. -/
theorem ignored_event_is_skipped_witness :
    (usb_session_device_events_cb (UsbWorld.create GDBusConnection.fresh "/s" (some [("A", [])]))
      ([{ event := "change", id := "A", properties := [] }] ++
        { event := "remove", id := "Z", properties := [] } ::
        [{ event := "add", id := "B", properties := [] }])).self.devices.map
      xdp_usb_device_get_id = ["A", "B"] := by
  rw [(ignored_event_is_skipped (UsbWorld.create GDBusConnection.fresh "/s" (some [("A", [])]))
    [{ event := "change", id := "A", properties := [] }]
    [{ event := "add", id := "B", properties := [] }]
    { event := "remove", id := "Z", properties := [] }
    (Or.inr ⟨rfl, by decide⟩)).2]
  decide

/-- C15 fails as stated: the example call waits for the export of its parent
window; the caller cancels, then the export completes.  The cancellation runs no
callback and leaves the world as it is; after the export the `CreateSession`
call is sent, no outcome was delivered and no `Close` call was sent. -/
theorem cancellation_during_export_is_ignored :
    deliver example_private example_exporting CallEvent.cancelled = some example_exporting ∧
    (∃ w2 create,
      run example_private example_exporting
        [CallEvent.cancelled, CallEvent.parent_exported "wayland:handle"] = some w2 ∧
      w2.task_returns = [] ∧ w2.bus.calls = [create] ∧ create.method_name = "CreateSession" ∧
      w2.reply_pending = true) :=
  ⟨rfl, _, _, rfl, rfl, rfl, rfl, rfl⟩

/-- C15 as amended: the export suspension is not cancellable.  A cancellation that
fires while the call is in AwaitingParentHandle runs no callback, delivers no
outcome and changes no state (the cancellation observer is connected only when
the call is dispatched), so what follows the completion of the export is what
would have followed without the cancellation; for a call without candidates
that is: the `CreateSession` call is sent and the call awaits its response,
with no outcome delivered. -/
theorem export_is_not_cancellable (K : PortalPrivate) (w : CallWorld)
    (h : AwaitingParentHandle w) :
    deliver K w CallEvent.cancelled = some w ∧
    (∀ handle, run K w [CallEvent.cancelled, CallEvent.parent_exported handle] =
      run K w [CallEvent.parent_exported handle]) ∧
    (CandidateFree w → ∀ handle, ∃ w1 request_path create,
      run K w [CallEvent.cancelled, CallEvent.parent_exported handle] = some w1 ∧
      AwaitingResponse K w1 request_path ∧ w1.task_returns = [] ∧
      w1.bus.calls = w.bus.calls ++ [create] ∧ create.method_name = "CreateSession") := by
  have hcancel : deliver K w CallEvent.cancelled = some w := by
    obtain ⟨_, _, _, _, _, _, _, _, _, hh, _, _⟩ := h
    exact deliver_cancelled_disconnected K w hh
  refine ⟨hcancel, ?_, ?_⟩
  · intro handle
    simp [run, List.foldlM_cons, List.foldlM_nil, hcancel]
  · intro hfree handle
    obtain ⟨w1, _, call1, token, session_token, h1, h2, _, _, _, _, _, _, _, hcalls⟩ :=
      exported_dispatch K w h hfree handle
    have hret : w1.task_returns = [] := by
      obtain ⟨_, _, _, _, _, _, _, _, _, hret⟩ := h2
      exact hret
    refine ⟨w1, _, _, ?_, h2, hret, hcalls, rfl⟩
    simp [run, List.foldlM_cons, List.foldlM_nil, hcancel, h1]

/-- Witness of C15 as amended: the example call that waits for its export is
cancelled, then the export completes. -/
theorem export_is_not_cancellable_witness :
    ∃ w1 request_path create,
      run example_private example_exporting
        [CallEvent.cancelled, CallEvent.parent_exported "wayland:handle"] = some w1 ∧
      AwaitingResponse example_private w1 request_path ∧ w1.task_returns = [] ∧
      w1.bus.calls = example_exporting.bus.calls ++ [create] ∧
      create.method_name = "CreateSession" :=
  (export_is_not_cancellable example_private example_exporting example_exporting_phase).2.2
    (by intro call hcall; cases hcall; rfl) "wayland:handle"

/-- C16: in every dispatched call the two tokens correlate the reply, in the sense
of `TokensCorrelate`: `handle_token` is the last component of the request path of
the `Response` subscription, and `session_handle_token` is the last component of
the session handle under which the delivered session subscribes to
`DeviceEvents`.  The dispatched calls are those made without a candidate array,
at once (no parent window) or when the export of the parent window completes:
a call made with an empty array is refused at entry and changes nothing, and a
call made with candidates has no result at the dispatch. -/
theorem tokens_correlate_reply (K : PortalPrivate) (w : CallWorld) (hw : w.Idle)
    (access_mode : XdpUsbAccessMode) (cancellable : Bool) :
    (∃ w1, xdp_portal_create_usb_session K w none access_mode none cancellable = some w1 ∧
      TokensCorrelate K w.sender w1) ∧
    (∀ (parent : XdpParent) (handle : String), ∃ w1 w2,
      xdp_portal_create_usb_session K w (some parent) access_mode none cancellable = some w1 ∧
      deliver K w1 (CallEvent.parent_exported handle) = some w2 ∧
      TokensCorrelate K w.sender w2) ∧
    (∀ (parent : Option XdpParent),
      xdp_portal_create_usb_session K w parent access_mode (some []) cancellable = some w) ∧
    (∀ (c : XdpUsbDeviceCandidate) (cs : List XdpUsbDeviceCandidate),
      xdp_portal_create_usb_session K w none access_mode (some (c :: cs)) cancellable = none ∧
      ∀ (parent : XdpParent) (handle : String), ∃ w1,
        xdp_portal_create_usb_session K w (some parent) access_mode (some (c :: cs)) cancellable
          = some w1 ∧
        w1.bus = w.bus ∧ w1.task_returns = w.task_returns ∧
        deliver K w1 (CallEvent.parent_exported handle) = none) := by
  have hnone : (none : Option (List XdpUsbDeviceCandidate)) ≠ some [] := by
    intro e
    cases e
  refine ⟨?_, ?_, ?_, ?_⟩
  · obtain ⟨hh, hs, hret, hex, _⟩ := hw
    unfold xdp_portal_create_usb_session
    rw [if_neg hnone]
    exact tokens_correlate_of_dispatch K _
      { session_id := none, signal_id := 0, cancellable := cancellable, parent := none,
        parent_handle := some "", request_path := none, cancelled_id := 0,
        device_candidates := none,
        access_mode := access_mode, reason := none } "" rfl rfl rfl hh hs hex hret
  · intro parent handle
    obtain ⟨w1, call1, h1, hphase, hc1, hdev, _, _, hsender⟩ :=
      entry_with_parent K w hw parent access_mode none hnone cancellable
    obtain ⟨call, _, hcall, _, _, _, _, hex, _, hh, hs, hret⟩ := hphase
    rw [hc1] at hcall
    cases hcall
    obtain ⟨w2, h2, h3⟩ := tokens_correlate_of_dispatch K
      { w1 with export_pending := false,
                call := some { call1 with parent_handle := some handle } }
      { call1 with parent_handle := some handle } handle rfl rfl hdev hh hs rfl hret
    refine ⟨w1, w2, h1, ?_, ?_⟩
    · simp only [deliver, hex, if_true, parent_exported, hc1]
      exact h2
    · rw [← hsender]
      exact h3
  · intro parent
    unfold xdp_portal_create_usb_session
    rw [if_pos rfl]
  · intro c cs
    exact entry_with_candidates_aborts K w access_mode c cs cancellable

/-- Witness of C16: the example call, dispatched without a parent window. -/
theorem tokens_correlate_reply_witness :
    ∃ w1, xdp_portal_create_usb_session example_private example_idle none
        XdpUsbAccessMode.XDP_USB_ACCESS_MODE_ALL none true = some w1 ∧
      TokensCorrelate example_private example_idle.sender w1 :=
  (tokens_correlate_reply example_private example_idle example_idle_is_idle
    XdpUsbAccessMode.XDP_USB_ACCESS_MODE_ALL true).1

/-- C17: for a device built from `(id, attributes)`, `get_id` returns `id`, and each
typed lookup of a key returns the value of the last entry for that key in the
attribute list when that value has the accessor's type, and otherwise the
accessor's default: no string (`NULL`), `false`, or 65535. -/
theorem device_accessors (id : String) (attributes : VarDict) (key : String) :
    xdp_usb_device_get_id (xdp_usb_device_new id attributes) = id ∧
    (xdp_usb_device_get_property_string (xdp_usb_device_new id attributes) key =
      match last_entry_value attributes key with
      | some (GVariant.string s) => some s
      | _ => none) ∧
    (xdp_usb_device_get_property_boolean (xdp_usb_device_new id attributes) key =
      match last_entry_value attributes key with
      | some (GVariant.boolean b) => b
      | _ => false) ∧
    (xdp_usb_device_get_property_uint16 (xdp_usb_device_new id attributes) key =
      match last_entry_value attributes key with
      | some (GVariant.uint16 n) => n % 65536
      | _ => 65535) ∧
    (∀ n, n < 65536 → last_entry_value attributes key = some (GVariant.uint16 n) →
      xdp_usb_device_get_property_uint16 (xdp_usb_device_new id attributes) key = n) ∧
    (xdp_usb_device_get_property_uint16
        (xdp_usb_device_new "1-2" [("vendor", GVariant.uint16 7), ("vendor", GVariant.string "x"),
          ("product", GVariant.string "old"), ("product", GVariant.uint16 9)]) "vendor" = 65535 ∧
     xdp_usb_device_get_property_uint16
        (xdp_usb_device_new "1-2" [("vendor", GVariant.uint16 7), ("vendor", GVariant.string "x"),
          ("product", GVariant.string "old"), ("product", GVariant.uint16 9)]) "product" = 9 ∧
     xdp_usb_device_get_property_string
        (xdp_usb_device_new "1-2" [("vendor", GVariant.uint16 7), ("vendor", GVariant.string "x"),
          ("product", GVariant.string "old"), ("product", GVariant.uint16 9)]) "vendor" = some "x" ∧
     xdp_usb_device_get_property_boolean
        (xdp_usb_device_new "1-2" [("vendor", GVariant.uint16 7), ("vendor", GVariant.string "x"),
          ("product", GVariant.string "old"), ("product", GVariant.uint16 9)]) "absent" = false) := by
  have hl := device_lookup id attributes key
  refine ⟨rfl, ?_, ?_, ?_, ?_, ?_⟩
  · unfold xdp_usb_device_get_property_string
    rw [hl]
  · unfold xdp_usb_device_get_property_boolean
    rw [hl]
  · unfold xdp_usb_device_get_property_uint16
    rw [hl]
  · intro n hn hlast
    unfold xdp_usb_device_get_property_uint16
    rw [hl, hlast]
    exact Nat.mod_eq_of_lt hn
  · refine ⟨?_, ?_, ?_, ?_⟩ <;> decide

end Libportal
